import Mathlib

/-!
# Wasl AI Bot: session memory, outbound sender, dispatcher, update poller and reply pipeline

A shallow embedding of `src/index.js`.

* JavaScript numbers that hold integers (chat ids, update ids, millisecond
  timestamps) are `Int`; counts and retry indices are `Nat`.
* `Date.now()` and the outcome of each `axios.post` are the environment
  `Env`; the AI model, `JSON.parse`, `toLowerCase` and the email transport
  are the environment `Collaborators`. Each outcome is indexed by the number
  of the call, so every theorem holds for every behaviour of the clock, the
  chat transport, the AI and the email transport.
* `handleMessage` takes the Reply Pipeline as a parameter (`Pipeline`), so
  what is proved about the dispatcher holds for every pipeline, `getAIReply`
  included.
* A collaborator fails by throwing an `Error` object with a string
  `message`, or by rejecting with some other value (`Rejection`); the
  `catch` blocks are modelled with what they do in either case, raising
  included.
* Strings are sequences of code points; the patterns and the searches of the
  program only tell ASCII characters, white space and `@` apart, so this
  agrees with the UTF-16 code units of JavaScript.
* Asynchronous code runs sequentially (each call is awaited), so it is
  modelled by explicit state passing over `World`.
* `console.log` / `console.error` / `console.warn` output is not modelled.
-/

namespace TelegramBoot

/-! ## Session (`class UserSession`) -/

/-- One element of `UserSession.history`: the object literal
`{ role, content, timestamp }` pushed by `addMessage`. -/
structure HistoryEntry where
  role : String
  content : String
  timestamp : Int
deriving DecidableEq, Repr

/-- The fields of `class UserSession`. `context` is the object used as a
string-keyed mapping; the empty object is the empty list. -/
structure UserSession where
  chatId : Int
  userName : String
  history : List HistoryEntry
  context : List (String × String)
  createdAt : Int
  lastActivity : Int
deriving DecidableEq, Repr

/-- The array expression `arr.slice(-k)` for `k > 0`: the last `k` elements
(the whole array when it has fewer than `k`). -/
def sliceLast {α : Type} (k : Nat) (xs : List α) : List α :=
  xs.drop (xs.length - k)

/-- The constructor `new UserSession(chatId, userName)`; `t1` and `t2` are the
two successive `Date.now()` readings. -/
def UserSession.new (chatId : Int) (userName : String) (t1 t2 : Int) : UserSession :=
  { chatId := chatId, userName := userName, history := [], context := [],
    createdAt := t1, lastActivity := t2 }

/-- The method `addMessage(role, content)`; `t1` is the `Date.now()` reading
stored as the timestamp of the entry, `t2` the later reading stored in
`lastActivity`. -/
def UserSession.addMessage (s : UserSession) (role content : String) (t1 t2 : Int) :
    UserSession :=
  let pushed := s.history ++ [{ role := role, content := content, timestamp := t1 }]
  let kept := if pushed.length > 10 then sliceLast 10 pushed else pushed
  { s with history := kept, lastActivity := t2 }

/-- The method `getHistory()`. -/
def UserSession.getHistory (s : UserSession) : List HistoryEntry := s.history

/-- The method `clearContext()`. -/
def UserSession.clearContext (s : UserSession) : UserSession :=
  { s with context := [] }

/-- One call `addMessage(role, content)` together with the two clock readings
taken inside it. -/
structure AddCall where
  role : String
  content : String
  t1 : Int
  t2 : Int
deriving DecidableEq, Repr

/-- The history entry that a call to `addMessage` pushes. -/
def AddCall.entry (c : AddCall) : HistoryEntry :=
  { role := c.role, content := c.content, timestamp := c.t1 }

/-- A sequence of calls to `addMessage` on one session, in order. -/
def addMessages (s : UserSession) (calls : List AddCall) : UserSession :=
  calls.foldl (fun acc c => acc.addMessage c.role c.content c.t1 c.t2) s

/-! ## Session store (`const userSessions = new Map()`) -/

/-- The `Map` from chat id to session, as its entries in insertion order. -/
abbrev Store := List (Int × UserSession)

namespace Sessions

/-- A list of entries is a `Map` when no key occurs twice. -/
def WF (m : Store) : Prop := (m.map Prod.fst).Nodup

instance (m : Store) : Decidable (WF m) := by unfold WF; infer_instance

/-- The method `Map.prototype.get`; `none` is `undefined`. -/
def get : Store → Int → Option UserSession
  | [], _ => none
  | (k, v) :: rest, key => if k = key then some v else get rest key

/-- The method `Map.prototype.has`. -/
def has (m : Store) (key : Int) : Bool := (get m key).isSome

/-- The method `Map.prototype.set`: an existing key keeps its position, a new
key is appended. -/
def set : Store → Int → UserSession → Store
  | [], key, v => [(key, v)]
  | (k, old) :: rest, key, v =>
    if k = key then (k, v) :: rest else (k, old) :: set rest key v

/-- The method `Map.prototype.delete`. -/
def delete (m : Store) (key : Int) : Store := m.filter (fun e => e.1 ≠ key)

end Sessions

/-! ## Environment and mutable state -/

/-- A thrown JavaScript `Error`, with its `message`. -/
structure JsError where
  message : String
deriving DecidableEq, Repr

/-- What the program observes of the outside world: `clock k` is the value
of the `k`-th `Date.now()` reading, `post k` tells whether the `k`-th
`axios.post` of `sendMessage` resolves (`true`) or rejects (`false`). -/
structure Env where
  clock : Nat → Int
  post : Nat → Bool

/-- The externally visible actions of the bot. -/
inductive Event where
  /-- one `axios.post` to `/sendMessage` with its outcome -/
  | post (chatId : Int) (text : String) (ok : Bool)
  /-- one `setTimeout` wait of `ms` milliseconds -/
  | wait (ms : Nat)
  /-- one call `model.generateContent(prompt)` -/
  | generate (prompt : String)
  /-- one call `emailTransporter.sendMail` with its recipient, subject and
  text -/
  | mail (to_ : String) (subject : String) (body : String)
deriving DecidableEq, Repr

/-- The mutable state reachable from the message handlers: the session map,
the number of clock readings and of post attempts made so far (the indices
into `Env`), and the trace of outbound actions. -/
structure World where
  userSessions : Store
  ticks : Nat
  posts : Nat
  events : List Event
deriving DecidableEq, Repr

/-- One reading of `Date.now()`. -/
def dateNow (env : Env) (w : World) : Int × World :=
  (env.clock w.ticks, { w with ticks := w.ticks + 1 })

/-- The function `getUserSession(chatId, userName)`. `has` followed by `get`
is one lookup; a missing session is constructed (two clock readings) and
stored. -/
def getUserSession (env : Env) (chatId : Int) (userName : String) (w : World) :
    UserSession × World :=
  match Sessions.get w.userSessions chatId with
  | some session => (session, w)
  | none =>
    let (t1, w1) := dateNow env w
    let (t2, w2) := dateNow env w1
    let session := UserSession.new chatId userName t1 t2
    (session, { w2 with userSessions := Sessions.set w2.userSessions chatId session })

/-! ## Idle sweep (the `setInterval` callback) -/

/-- The constant `oneHour = 60 * 60 * 1000`. -/
def oneHour : Int := 60 * 60 * 1000

/-- The `for (const [chatId, session] of userSessions.entries())` loop of the
sweep: `entries` are the entries still to visit, `m` is the map being
mutated. -/
def sweepLoop (now : Int) : List (Int × UserSession) → Store → Store
  | [], m => m
  | (chatId, session) :: entries, m =>
    if now - session.lastActivity > oneHour then
      sweepLoop now entries (Sessions.delete m chatId)
    else
      sweepLoop now entries m

/-- The callback passed to `setInterval`: one run of the idle sweep. -/
def sessionSweep (env : Env) (w : World) : World :=
  let (now, w1) := dateNow env w
  { w1 with userSessions := sweepLoop now w1.userSessions w1.userSessions }

/-! ## Outbound Sender (`sendMessage`) -/

/-- The `for (let i = 0; i < retries; i++)` loop of `sendMessage`. The first
numeric argument is `retries - i`, the number of iterations the loop
condition still admits; `i` is the loop variable. The result is the
returned value (`none` is `undefined`, when the loop ends without
`return`). -/
def sendMessageLoop (env : Env) (chatId : Int) (text : String) (retries : Nat) :
    Nat → Nat → World → Option Bool × World
  | 0, _, w => (none, w)
  | left + 1, i, w =>
    let ok := env.post w.posts
    let w1 : World :=
      { w with posts := w.posts + 1, events := w.events ++ [Event.post chatId text ok] }
    if ok then (some true, w1)
    else if i < retries - 1 then
      sendMessageLoop env chatId text retries left (i + 1)
        { w1 with events := w1.events ++ [Event.wait (1000 * (i + 1))] }
    else (some false, w1)

/-- The function `sendMessage(chatId, text, retries)`. -/
def sendMessage (env : Env) (chatId : Int) (text : String) (retries : Nat) (w : World) :
    Option Bool × World :=
  sendMessageLoop env chatId text retries retries 0 w

/-- The default value of the parameter `retries` of `sendMessage`. -/
def defaultRetries : Nat := 3

/-! ## Dispatcher (`handleMessage`) -/

/-- The field `message.chat`. -/
structure Chat where
  id : Int
deriving DecidableEq, Repr

/-- The field `message.from`; `first_name` may be missing. -/
structure User where
  first_name : Option String
deriving DecidableEq, Repr

/-- A Telegram message as far as `handleMessage` reads it; a missing field
is `none`. -/
structure Message where
  chat : Option Chat
  from_ : Option User
  text : Option String
deriving DecidableEq, Repr

/-- The expression `a || d` for a possibly missing string `a`: a missing or
empty string is falsy. -/
def orElse (a : Option String) (d : String) : String :=
  match a with
  | some s => if s = "" then d else s
  | none => d

/-- The Reply Pipeline `getAIReply(userMessage, userName, chatId)` as
`handleMessage` sees it: it may change the state, and returns a reply or
raises. -/
abbrev Pipeline := String → String → Int → World → Except JsError String × World

/-- Confirmation sent by the clear command. -/
def clearedText : String := "🗑️ تم مسح الذاكرة! بدأنا محادثة جديدة."

/-- The template literal sent by the status command. -/
def statusText (messageCount : Nat) (sessionAge : Int) : String :=
  "📊 حالة الجلسة:\n\n💬 عدد الرسائل: " ++ toString messageCount ++
  "\n⏱️ مدة الجلسة: " ++ toString sessionAge ++ " دقيقة\n\n💡 لمسح الذاكرة: /clear"

/-- The apology sent when the Reply Pipeline raises. -/
def processingErrorText (firstName : String) : String :=
  "⚠️ عذراً " ++ firstName ++ "، حدث خطأ في معالجة رسالتك. يرجى المحاولة مرة أخرى."

/-- Which of the three branches of `handleMessage` a text takes. -/
inductive Route where
  /-- the branch guarded by the first `if` (clear command) -/
  | clear
  /-- the branch guarded by the second `if` (status command) -/
  | status
  /-- the code after both `if`s (Reply Pipeline) -/
  | reply
deriving DecidableEq, Repr

/-- The conditions of the two `if` statements of `handleMessage`, in source
order; each guarded block ends in `return`. -/
def route (text : String) : Route :=
  if text = "/clear" ∨ text = "امسح" ∨ text = "clear" then Route.clear
  else if text = "/status" ∨ text = "الحالة" then Route.status
  else Route.reply

/-- The function `handleMessage(message)`; `none` is a missing message.
The statements guarded by the `try` blocks of the two command branches
(`getUserSession`, the field assignments, `sendMessage`) cannot raise, so
their `catch` blocks and the outermost `catch` are not reached; the `try`
around the Reply Pipeline is the `match` on its outcome. -/
def handleMessage (env : Env) (getAIReply : Pipeline) (message : Option Message)
    (w : World) : World :=
  match message with
  | none => w
  | some msg =>
    match msg.chat, msg.from_ with
    | some chat, some sender =>
      let chatId := chat.id
      let text := orElse msg.text ""
      let firstName := orElse sender.first_name "Friend"
      match route text with
      | Route.clear =>
        let (session, w1) := getUserSession env chatId firstName w
        let session1 := { session with history := [] }
        let session2 := session1.clearContext
        let w2 := { w1 with userSessions := Sessions.set w1.userSessions chatId session2 }
        (sendMessage env chatId clearedText defaultRetries w2).2
      | Route.status =>
        let (session, w1) := getUserSession env chatId firstName w
        let messageCount := session.history.length
        let (now, w2) := dateNow env w1
        let sessionAge := Int.fdiv (now - session.createdAt) 60000
        (sendMessage env chatId (statusText messageCount sessionAge) defaultRetries w2).2
      | Route.reply =>
        match getAIReply text firstName chatId w with
        | (Except.ok reply, w1) => (sendMessage env chatId reply defaultRetries w1).2
        | (Except.error _, w1) =>
          (sendMessage env chatId (processingErrorText firstName) defaultRetries w1).2
    | _, _ => w

/-! ## Update Poller (`getUpdates`) -/

/-- One element of the array `response.data.result`. -/
structure Update where
  update_id : Int
  message : Option Message
deriving DecidableEq, Repr

/-- The state of the poller: the module variable `lastUpdateId` and the
state the message handlers work on (which does not include the cursor: no
handler assigns `lastUpdateId`). -/
structure BotState where
  lastUpdateId : Int
  world : World
deriving DecidableEq, Repr

/-- A message handler as the poll loop sees it: it changes the state and
either returns (`none`) or raises. -/
abbrev Handler := Message → World → Option JsError × World

/-- The body of the `try` block inside the `for` loop of `getUpdates`: the
cursor is assigned first, then the message, when there is one, is
handled. The result tells whether the block raised. -/
def processUpdate (handler : Handler) (update : Update) (st : BotState) :
    Option JsError × BotState :=
  let st1 := { st with lastUpdateId := update.update_id }
  match update.message with
  | some msg =>
    let (raised, w) := handler msg st1.world
    (raised, { st1 with world := w })
  | none => (none, st1)

/-- The loop `for (const update of updates)` with its `try`/`catch`: an
exception raised by one update is logged and the loop goes on. -/
def processUpdates (handler : Handler) : List Update → BotState → BotState
  | [], st => st
  | update :: rest, st =>
    match processUpdate handler update st with
    | (none, st1) => processUpdates handler rest st1
    | (some _, st1) => processUpdates handler rest st1

/-- How the `axios.get` of one poll ends, as far as `getUpdates` tells the
cases apart. -/
inductive PollResponse where
  /-- rejected, `error.response?.status === 409` -/
  | conflict
  /-- rejected with code `ETIMEDOUT` or `ECONNABORTED` -/
  | timedOut
  /-- rejected with code `ECONNREFUSED` or `ENOTFOUND` -/
  | unreachable
  /-- rejected with any other error -/
  | failed
  /-- resolved with a falsy response or falsy `response.data` -/
  | noData
  /-- resolved, `response.data.result` is not an array -/
  | notArray
  /-- resolved with the array `response.data.result` -/
  | updates (batch : List Update)
deriving DecidableEq, Repr

/-- The function `getUpdates()`, given how the poll ended. The first
component is the exception that leaves the function, if any. -/
def getUpdates (handler : Handler) (response : PollResponse) (st : BotState) :
    Option JsError × BotState :=
  match response with
  | PollResponse.updates batch => (none, processUpdates handler batch st)
  | PollResponse.notArray => (none, st)
  | PollResponse.unreachable =>
    (none, { st with world :=
      { st.world with events := st.world.events ++ [Event.wait 5000] } })
  | PollResponse.conflict => (none, st)
  | PollResponse.timedOut => (none, st)
  | PollResponse.failed => (none, st)
  | PollResponse.noData => (none, st)

/-- The poll loop's handler: `handleMessage` with its environment; it never
raises. -/
def botHandler (env : Env) (getAIReply : Pipeline) : Handler :=
  fun msg w => (none, handleMessage env getAIReply (some msg) w)

/-! ## Strings and patterns -/

/-- One element of a regular expression that is a sequence of literal
characters and greedy repetitions of a character class: `lit c` is the
character `c`, `many cls min` is `[cls]{min,}` (`[cls]+` for `min = 1`). -/
inductive Item where
  | lit (c : Char)
  | many (cls : Char → Bool) (min : Nat)

/-- Length of the longest run of characters of the class at the start of
the input: how far a greedy repetition first reaches. -/
def longestRun (cls : Char → Bool) : List Char → Nat
  | [] => 0
  | c :: cs => if cls c then longestRun cls cs + 1 else 0

/-- Backtracking of a greedy repetition: try `k` repetitions, then `k - 1`,
down to `min`, and keep the first count after which the rest of the
pattern (`cont`) matches. The result is the number of characters matched
by the repetition and the rest of the pattern together. -/
def backtrack (cont : List Char → Option Nat) (input : List Char) (min : Nat) :
    Nat → Option Nat
  | 0 => if min = 0 then cont input else none
  | k + 1 =>
    if k + 1 < min then none
    else
      match cont (input.drop (k + 1)) with
      | some n => some (k + 1 + n)
      | none => backtrack cont input min k

/-- Match a pattern at the start of the input, as a backtracking regular
expression engine does; `atEnd` is the anchor `$` after the pattern. The
result is the number of characters matched. -/
def matchItems (atEnd : Bool) : List Item → List Char → Option Nat
  | [], input => if atEnd then (if input = [] then some 0 else none) else some 0
  | Item.lit c :: rest, input =>
    match input with
    | [] => none
    | d :: ds => if d = c then (matchItems atEnd rest ds).map (fun n => n + 1) else none
  | Item.many cls min :: rest, input =>
    backtrack (matchItems atEnd rest) input min (longestRun cls input)

/-- The first match of an unanchored pattern in the input, scanning start
positions from left to right: the matched characters. -/
def firstMatch (items : List Item) : List Char → Option (List Char)
  | [] => (matchItems false items []).map (fun n => ([] : List Char).take n)
  | c :: cs =>
    match matchItems false items (c :: cs) with
    | some n => some ((c :: cs).take n)
    | none => firstMatch items cs

/-- The class `[a-zA-Z0-9]`, by code point. -/
def isAlnumCode (n : Nat) : Prop :=
  (97 ≤ n ∧ n ≤ 122) ∨ (65 ≤ n ∧ n ≤ 90) ∨ (48 ≤ n ∧ n ≤ 57)

instance (n : Nat) : Decidable (isAlnumCode n) := by unfold isAlnumCode; infer_instance

/-- The class `[a-zA-Z0-9._%+-]`. -/
def isLocalChar (c : Char) : Bool :=
  decide (isAlnumCode c.toNat ∨ c.toNat = 46 ∨ c.toNat = 95 ∨ c.toNat = 37 ∨
    c.toNat = 43 ∨ c.toNat = 45)

/-- The class `[a-zA-Z0-9.-]`. -/
def isDomainChar (c : Char) : Bool :=
  decide (isAlnumCode c.toNat ∨ c.toNat = 46 ∨ c.toNat = 45)

/-- The class `[a-zA-Z]`. -/
def isLetter (c : Char) : Bool :=
  decide ((97 ≤ c.toNat ∧ c.toNat ≤ 122) ∨ (65 ≤ c.toNat ∧ c.toNat ≤ 90))

/-- The code points of the class `\s` of a JavaScript regular expression,
which are also what `String.prototype.trim` removes: white space and line
terminators. -/
def isSpaceCode (n : Nat) : Prop :=
  (9 ≤ n ∧ n ≤ 13) ∨ n = 32 ∨ n = 160 ∨ n = 5760 ∨ (8192 ≤ n ∧ n ≤ 8202) ∨
  n = 8232 ∨ n = 8233 ∨ n = 8239 ∨ n = 8287 ∨ n = 12288 ∨ n = 65279

instance (n : Nat) : Decidable (isSpaceCode n) := by unfold isSpaceCode; infer_instance

/-- The class `\s`. -/
def isJsSpace (c : Char) : Bool := decide (isSpaceCode c.toNat)

/-- The class `[^\s@]`. -/
def isAddressChar (c : Char) : Bool :=
  decide (¬ (isSpaceCode c.toNat ∨ c.toNat = 64))

/-- The pattern `[a-zA-Z0-9._%+-]+@[a-zA-Z0-9.-]+\.[a-zA-Z]{2,}` of
`extractEmail`. -/
def extractPattern : List Item :=
  [Item.many isLocalChar 1, Item.lit '@', Item.many isDomainChar 1, Item.lit '.',
   Item.many isLetter 2]

/-- The pattern `[^\s@]+@[^\s@]+\.[^\s@]+` of `sendEmail`, between `^` and `$`. -/
def validPattern : List Item :=
  [Item.many isAddressChar 1, Item.lit '@', Item.many isAddressChar 1, Item.lit '.',
   Item.many isAddressChar 1]

/-- The function `extractEmail(text)`: the first match of the pattern, or
`none` for `null`. -/
def extractEmail (text : String) : Option String :=
  (firstMatch extractPattern text.data).map String.mk

/-- The test `emailRegex.test(to)` of `sendEmail`; the anchor `^` admits
the start position 0 only. -/
def emailRegexTest (to_ : String) : Bool :=
  (matchItems true validPattern to_.data).isSome


/-- The strings a pattern denotes. -/
def Lang : List Item → List Char → Prop
  | [], s => s = []
  | Item.lit c :: rest, s => ∃ t, s = c :: t ∧ Lang rest t
  | Item.many cls min :: rest, s =>
    ∃ u t, s = u ++ t ∧ (∀ x ∈ u, cls x = true) ∧ min ≤ u.length ∧ Lang rest t


/-- The method `String.prototype.trim`. -/
def jsTrim (s : String) : String :=
  String.mk (((s.data.dropWhile isJsSpace).reverse.dropWhile isJsSpace).reverse)

/-- Whether the input starts with the given characters. -/
def startsWith : List Char → List Char → Bool
  | [], _ => true
  | _ :: _, [] => false
  | p :: ps, c :: cs => p == c && startsWith ps cs

/-- The method `String.prototype.includes`, on characters. -/
def includesChars (pat : List Char) : List Char → Bool
  | [] => startsWith pat []
  | c :: cs => startsWith pat (c :: cs) || includesChars pat cs

/-- The method `String.prototype.includes`. -/
def includes (s pat : String) : Bool := includesChars pat.data s.data

/-- The call `replace(/fence\n?/g, '')` for a literal `fence`: every
occurrence of the fence, with the line feed that follows it if any, is
removed. The numeric argument bounds the number of steps; the length of
the input is enough. -/
def removeFence (fence : List Char) : Nat → List Char → List Char
  | 0, input => input
  | steps + 1, input =>
    match input with
    | [] => []
    | c :: cs =>
      if startsWith fence (c :: cs) then
        match (c :: cs).drop fence.length with
        | '\n' :: rest => removeFence fence steps rest
        | rest => removeFence fence steps rest
      else c :: removeFence fence steps cs

/-- The expression
`text.replace(/```json\n?/g, '').replace(/```\n?/g, '').trim()`. -/
def cleanJson (text : String) : String :=
  let step1 := removeFence "```json".data text.length text.data
  let step2 := removeFence "```".data step1.length step1
  jsTrim (String.mk step2)

/-- The negation of the test `!text || text.trim().length === 0`. -/
def hasText (text : String) : Bool :=
  !(text = "" || (jsTrim text).length = 0)

/-! ## Reply texts and prompts -/

/-- The reply of `getAIReply` when intent detection hits a quota error (line 330). -/
def busyText : String :=
  "🔄 معذرة! خادم الذكاء الاصطناعي مشغول حالياً.\n\nيرجى المحاولة بعد دقائق قليلة."

/-- The reply asking for an address (lines 346-350). -/
def needAddressText : String :=
  "📧 فهمت! تريد إرسال إيميل.\n\n❌ لكن أحتاج البريد الإلكتروني!\n\n📝 مثال: \"أرسل شكر لـ boss@company.com\""

/-- The reply when `extractEmailInfo` raises (lines 360-363). -/
def extractionErrorText : String :=
  "❌ حدث خطأ في تحليل معلومات الإيميل.\n        \n💡 حاول مرة أخرى بصيغة أوضح:\n\"أرسل إيميل لـ example@gmail.com عن الموضوع X محتواه Y\""

/-- The reply when `extractEmailInfo` returns `null` (lines 367-370). -/
def noEmailInfoText : String :=
  "❌ لم أستطع استخراج معلومات الإيميل.\n\n💡 حاول صيغة أوضح مثل:\n\"أرسل شكر لـ boss@company.com\""

/-- The reply when `sendEmail` returns a falsy value (lines 386-390). -/
def emailFailedText : String :=
  "❌ فشل إرسال الإيميل.\n\n🔄 يرجى المحاولة مرة أخرى، أو تحقق من:\n- صحة البريد الإلكتروني\n- اتصالك بالإنترنت"

/-- The confirmation reply after a sent email (lines 393-400). -/
def confirmationText (to_ subject body : String) : String :=
  "✅ تم! الإيميل وصل!\n\n📬 إلى: " ++
  to_ ++
  "\n📝 الموضوع: " ++
  subject ++
  "\n✉️ المحتوى:\n" ++
  body ++
  "\n\n💡 يمكنك إرسال إيميل آخر!"

/-- The reply when sending the email raises (lines 403-405). -/
def sendErrorText : String :=
  "❌ حدث خطأ أثناء إرسال الإيميل.\n\n💡 يرجى المحاولة مرة أخرى."

/-- The static capability summary (lines 412-434). -/
def helpText : String :=
  "🤖 أنا واصل - AI Agent قوي!\n\n⚡ قدراتي الحقيقية (شغالة الآن):\n\n📧 إرسال إيميلات Gmail فعلية\n   ✅ \"أرسل شكر لـ boss@company.com\"\n   ✅ \"send email to friend@gmail.com\"\n   ✅ أقدر أرسل إيميلات حقيقية لأي شخص!\n\n💬 الإجابة على جميع أسئلتك\n   \"اشرح لي البرمجة\"\n   \"What is AI?\"\n\n🔧 المساعدة في الكتابة\n   \"ساعدني في كتابة إيميل احترافي\"\n\n🌐 الترجمة والتحليل\n   \"ترجم: Thank you\"\n\n💾 ذاكرة المحادثة\n   أتذكر كل شيء تقوله في الجلسة!\n\n💡 جرب الآن! أرسل إيميل حقيقي:"

/-- The persona prompt of the chat stage (lines 438-462); `configured` tells whether `emailTransporter` is set. -/
def chatPrompt (configured : Bool) (conversationContext userName userMessage : String) : String :=
  "أنت \"واصل\" 🤖 - AI Agent ذكي مع ذاكرة وقدرات حقيقية.\n\nشخصيتك:\n- ذكي ومفيد\n- ودود ومحترم  \n- مباشر وعملي\n- تتذكر المحادثة السابقة\n- نفس لغة المستخدم\n\n⚡ قدراتك الفعلية (شغالة الآن):\n" ++
  (if configured then "✅ إرسال إيميلات من Gmail - أقدر أرسل إيميلات فعلية!" else "⏳ إرسال إيميلات - قيد الإعداد") ++
  "\n✅ الإجابة على جميع الأسئلة\n✅ المساعدة في الكتابة والصياغة\n✅ الشرح والتحليل بذكاء\n✅ تذكر المحادثة الكاملة\n\n⚠️ مهم جداً:\n- إذا طلب إرسال إيميل، قل له \"تمام! أرسل لي البريد الإلكتروني والمحتوى\"\n- لا تقل \"لا أستطيع\" أو \"لا أقدر\" - أنت تقدر فعلياً!\n- شجعه على استخدام ميزة الإيميل\n" ++
  conversationContext ++
  "\nالمستخدم: " ++
  userName ++
  "\nالرسالة الحالية: \"" ++
  userMessage ++
  "\"\n\nرد بـ 100-200 كلمة، مفيد وعملي وإيجابي. إذا كانت الرسالة متعلقة بالمحادثة السابقة، اربط إجابتك بها."

/-- The reply when chat generation hits a quota error (line 489). -/
def quotaText (userName : String) : String :=
  "🔄 معذرة " ++
  userName ++
  "! خادم الذكاء الاصطناعي مشغول حالياً بسبب الطلبات الكثيرة.\n\nيرجى المحاولة بعد دقائق قليلة. شكراً على صبرك! 🙏"

/-- The reply when chat generation fails otherwise (lines 493-502). -/
def genericText (userName : String) : String :=
  "🤖 مرحباً " ++
  userName ++
  "!\n\nحدث خطأ مؤقت في معالجة طلبك.\n\n💡 يمكنك:\n- إعادة المحاولة\n- اكتب \"مساعدة\" لرؤية القدرات\n- أرسل سؤال آخر\n\nأنا جاهز للمساعدة! ✨"

/-- The reply of the outermost `catch` of `getAIReply` (lines 509-518). -/
def unexpectedText (userName : String) : String :=
  "⚠️ عذراً " ++
  userName ++
  "!\n\nحدث خطأ غير متوقع.\n\n💡 جرب:\n- أعد صياغة السؤال\n- اكتب \"مساعدة\"\n- جرب مرة أخرى\n\nأنا هنا للمساعدة! 🤖"

/-- The classification prompt (lines 292-301). -/
def intentPrompt (conversationContext userMessage : String) : String :=
  "أنت AI Agent. حلل الرسالة مع مراعاة السياق السابق.\n" ++
  conversationContext ++
  "\nالرسالة الحالية: \"" ++
  userMessage ++
  "\"\n\nرد بـ JSON فقط:\n\x7b\n  \"intent\": \"send_email\" / \"question\" / \"greeting\" / \"help\" / \"follow_up\",\n  \"action\": \"execute\" / \"ask_info\" / \"respond\",\n  \"confidence\": 0.0-1.0\n\x7d"

/-- The prompt of `extractEmailInfo` (lines 206-219). -/
def extractionPrompt (userMessage : String) (emailAddress : Option String) : String :=
  "أنت محلل ذكي. استخرج معلومات الإيميل من رسالة المستخدم.\n\nرسالة المستخدم: \"" ++
  userMessage ++
  "\"\n" ++
  (match emailAddress with
    | some address => "البريد المستخرج: " ++ address
    | none => "") ++
  "\n\nقم بتحليل الرسالة واستخراج:\n1. موضوع الإيميل (Subject)\n2. محتوى الإيميل (Body)\n\nرد بصيغة JSON فقط:\n\x7b\n  \"subject\": \"الموضوع\",\n  \"body\": \"المحتوى\"\n\x7d"

/-! ## Collaborators -/

/-- A value read from a parsed JSON object or returned by a collaborator,
as far as the program looks at it: `other` stands for any value that is
neither `undefined` nor a string, with its truthiness and its conversion
to a string. -/
inductive JsVal where
  | undefined
  | str (s : String)
  | other (truthy : Bool) (shown : String)
deriving DecidableEq, Repr

/-- Truthiness of a value. -/
def JsVal.truthy : JsVal → Bool
  | JsVal.undefined => false
  | JsVal.str s => !(s = "")
  | JsVal.other t _ => t

/-- Conversion of a value to a string, as in a template literal. -/
def JsVal.shown : JsVal → String
  | JsVal.undefined => "undefined"
  | JsVal.str s => s
  | JsVal.other _ s => s

/-- A value a collaborator rejects with that is not an `Error` object with
a string `message`, by what the `catch` blocks do with it: they read
`error.message`, test it for truth and call its method `includes`. A value
whose `message` is read through a getter that raises is not modelled. -/
inductive Rejection where
  /-- `null` or `undefined`: reading `error.message` raises a `TypeError` -/
  | nullish
  /-- a value whose `message` is `undefined` (a thrown string or number, a
  plain object): falsy, and calling `includes` on it raises a `TypeError` -/
  | noMessage
  /-- a value whose `message` is truthy and has no method `includes` (a
  number, say): calling it raises a `TypeError` -/
  | oddMessage
deriving DecidableEq, Repr

/-- How one call `model.generateContent(prompt)` followed by
`result.response.text()` ends. -/
inductive GenResult where
  /-- the call or `text()` raises an `Error` object -/
  | throws (e : JsError)
  /-- the call or `text()` rejects with a value that is not an `Error`
  object with a string message -/
  | rejects (r : Rejection)
  /-- the result or `result.response` is falsy -/
  | noResponse
  /-- `text()` returns this string (the empty string also stands for a
  missing text) -/
  | text (t : String)
deriving DecidableEq, Repr

/-- How `JSON.parse` ends: a `SyntaxError`, the value `null`, or a value
whose properties can be read (`field name` is `undefined` for a property
the value lacks, so a number or a string has no fields). -/
inductive ParseResult where
  | throws (e : JsError)
  | null
  | object (field : String → JsVal)

/-- The error a failing `sendMail` rejects with. -/
structure MailError where
  code : Option String
  message : String
deriving DecidableEq, Repr

/-- How one call `emailTransporter.sendMail(mailOptions)` ends: it resolves
and `info.messageId` is the given value, it rejects with an `Error` object
(a nullish `info` counts as this, reading `info.messageId` raises a
`TypeError`), or it rejects with another value; then `e` holds the `code`
read from that value and the text its `message` converts to in a template
literal (`undefined` when it has none). -/
inductive MailResult where
  | sent (messageId : JsVal)
  | failed (e : MailError)
  | rejects (r : Rejection) (e : MailError)
deriving DecidableEq, Repr

/-- The AI and email collaborators and the built-in functions the Reply
Pipeline calls: `generate k` is how the `k`-th call to the AI model ends,
`parse` is `JSON.parse`, `toLowerCase` is `String.prototype.toLowerCase`,
`emailTransporter` is `none` when Gmail is not configured and otherwise
tells how the `k`-th `sendMail` ends. -/
structure Collaborators where
  generate : Nat → GenResult
  parse : String → ParseResult
  toLowerCase : String → String
  emailTransporter : Option (Nat → MailResult)

/-- The prompts of the calls to the AI model in a trace, in call order. -/
def generateCalls : List Event → List String
  | [] => []
  | Event.generate prompt :: rest => prompt :: generateCalls rest
  | _ :: rest => generateCalls rest

/-- The recipient, subject and body of the `sendMail` calls in a trace, in
call order. -/
def mailCalls : List Event → List (String × String × String)
  | [] => []
  | Event.mail to_ subject body :: rest => (to_, subject, body) :: mailCalls rest
  | _ :: rest => mailCalls rest

/-- One call `model.generateContent(prompt)`. -/
def generateContent (ai : Collaborators) (prompt : String) (w : World) :
    GenResult × World :=
  (ai.generate (generateCalls w.events).length,
   { w with events := w.events ++ [Event.generate prompt] })

/-- Whether the `catch` blocks of `getAIReply` take an error for a quota
error: `error.message && (error.message.includes('429') ||
error.message.includes('quota'))`. -/
def isQuotaError (e : JsError) : Bool :=
  !(e.message = "") && (includes e.message "429" || includes e.message "quota")

/-- The `TypeError` raised by reading a property of `null`. -/
def nullAccessError : JsError := { message := "Cannot read properties of null" }

/-- The `TypeError` raised by reading a property of `undefined`. -/
def undefinedAccessError : JsError := { message := "Cannot read properties of undefined" }

/-- The `TypeError` raised by calling `error.message.includes` when the
message has no such method. -/
def notAFunctionError : JsError := { message := "error.message.includes is not a function" }

/-- What a `catch` block of `getAIReply` has caught: an `Error` object
(raised by a collaborator, by `JSON.parse` or by the `try` block itself)
or another value a collaborator rejected with. -/
inductive Caught where
  | error (e : JsError)
  | other (r : Rejection)
deriving DecidableEq, Repr

/-- The first statements of the `catch` blocks of intent detection and of
the chat stage (lines 325-328 and 484-487): `error.message` is logged and
tested for a quota error. The result tells whether the error is taken for
a quota error, or is the `TypeError` these statements raise themselves. -/
def quotaCheck : Caught → Except JsError Bool
  | Caught.error e => Except.ok (isQuotaError e)
  | Caught.other Rejection.nullish => Except.error nullAccessError
  | Caught.other Rejection.noMessage => Except.ok false
  | Caught.other Rejection.oddMessage => Except.error notAFunctionError

/-! ## Email (`sendEmail`, `extractEmailInfo`) -/

/-- The message of the error `sendEmail` raises when `sendMail` rejects
(the `catch` block, lines 178-191). -/
def mailFailureMessage (e : MailError) : String :=
  if e.code = some "EAUTH" then "⚠️ Gmail authentication failed. Check your App Password."
  else if e.code = some "ETIMEDOUT" then "⚠️ Email timeout. Check your internet connection."
  else if e.code = some "ECONNECTION" then "⚠️ Cannot connect to Gmail servers."
  else "⚠️ Email failed: " ++ e.message

/-- What `sendEmail` returns or raises for an outcome of `sendMail` (lines
175-191): `info.messageId`, or the error raised by its `catch` block,
which logs `error.message` (a `TypeError` for a nullish rejection) and then
raises the error that `mailFailureMessage` describes. -/
def mailOutcome : MailResult → Except JsError JsVal
  | MailResult.sent messageId => Except.ok messageId
  | MailResult.failed e => Except.error { message := mailFailureMessage e }
  | MailResult.rejects Rejection.nullish _ => Except.error nullAccessError
  | MailResult.rejects Rejection.noMessage e =>
    Except.error { message := mailFailureMessage e }
  | MailResult.rejects Rejection.oddMessage e =>
    Except.error { message := mailFailureMessage e }

/-- The function `sendEmail(to, subject, body)`: it returns
`info.messageId` or raises. -/
def sendEmail (ai : Collaborators) (to_ : String) (subject body : JsVal) (w : World) :
    Except JsError JsVal × World :=
  match ai.emailTransporter with
  | none =>
    (Except.error { message :=
      "⚠️ Email service not configured. Check GMAIL_USER and GMAIL_APP_PASSWORD in .env" }, w)
  | some sendMail =>
    if emailRegexTest to_ then
      (mailOutcome (sendMail (mailCalls w.events).length),
       { w with events := w.events ++ [Event.mail to_ subject.shown body.shown] })
    else
      (Except.error { message := "⚠️ Invalid email address: " ++ to_ }, w)

/-- The object `extractEmailInfo` returns. -/
structure EmailInfo where
  to_ : Option String
  subject : JsVal
  body : JsVal
  needsMoreInfo : Bool
deriving DecidableEq, Repr

/-- The function `extractEmailInfo(userMessage, userName, chatId)`, whose
parameters `userName` and `chatId` are not used; `none` is `null`. Its
`catch` block (lines 255-268) returns `null` for an `Error` object; for any
other rejection it raises a `TypeError`, at `error.message` for a nullish
value and at `error.message.includes` otherwise. -/
def extractEmailInfo (ai : Collaborators) (userMessage : String) (w : World) :
    Except JsError (Option EmailInfo) × World :=
  let emailAddress := extractEmail userMessage
  let (result, w1) := generateContent ai (extractionPrompt userMessage emailAddress) w
  match result with
  | GenResult.throws _ => (Except.ok none, w1)
  | GenResult.rejects Rejection.nullish => (Except.error nullAccessError, w1)
  | GenResult.rejects Rejection.noMessage => (Except.error undefinedAccessError, w1)
  | GenResult.rejects Rejection.oddMessage => (Except.error notAFunctionError, w1)
  | GenResult.noResponse => (Except.ok none, w1)
  | GenResult.text text =>
    if hasText text then
      match ai.parse (cleanJson text) with
      | ParseResult.throws _ => (Except.ok none, w1)
      | ParseResult.null => (Except.ok none, w1)
      | ParseResult.object field =>
        if (field "subject").truthy && (field "body").truthy then
          (Except.ok (some { to_ := emailAddress, subject := field "subject",
                             body := field "body", needsMoreInfo := emailAddress.isNone }), w1)
        else (Except.ok none, w1)
    else (Except.ok none, w1)

/-! ## Reply Pipeline (`getAIReply`) -/


/-- The method `getRecentMessages(count)`: `history.slice(-count)`, which is
the whole history for `count = 0`. -/
def UserSession.getRecentMessages (s : UserSession) (count : Nat) : List HistoryEntry :=
  if count = 0 then s.history else sliceLast count s.history

/-- The first statements of `getAIReply` (lines 275-278): the session is
fetched or created and the inbound text is recorded as a user turn. The
result is the session after `addMessage`, which is also what the map holds
for the chat. -/
def recordTurn (env : Env) (userMessage userName : String) (chatId : Int) (w : World) :
    UserSession × World :=
  let (session, w1) := getUserSession env chatId userName w
  let (t1, w2) := dateNow env w1
  let (t2, w3) := dateNow env w2
  let session1 := session.addMessage "user" userMessage t1 t2
  (session1, { w3 with userSessions := Sessions.set w3.userSessions chatId session1 })

/-- The string `conversationContext` built from the recent history (lines
281-289). -/
def conversationContextOf (session : UserSession) : String :=
  let recentHistory := session.getRecentMessages 5
  if recentHistory.length > 1 then
    recentHistory.dropLast.foldl
      (fun acc msg =>
        acc ++ (if msg.role = "user" then "المستخدم" else "أنت") ++ ": " ++ msg.content ++ "\n")
      "\n\nسياق المحادثة السابقة:\n"
  else ""

/-- The object `intent`, as parsed or as defaulted. -/
structure Intent where
  intent : JsVal
  action : JsVal
  confidence : JsVal
deriving DecidableEq, Repr

/-- The default `{ intent: 'question', action: 'respond', confidence: 0.5 }`. -/
def defaultIntent : Intent :=
  { intent := JsVal.str "question", action := JsVal.str "respond",
    confidence := JsVal.other true "0.5" }

/-- What the `try` block of intent detection (lines 304-322) yields: the
parsed intent, or what it raises. -/
def parseIntent (ai : Collaborators) (result : GenResult) : Except Caught Intent :=
  match result with
  | GenResult.throws e => Except.error (Caught.error e)
  | GenResult.rejects r => Except.error (Caught.other r)
  | GenResult.noResponse =>
    Except.error (Caught.error { message := "Intent detection failed: empty response" })
  | GenResult.text text =>
    if hasText text then
      match ai.parse (cleanJson text) with
      | ParseResult.throws e => Except.error (Caught.error e)
      | ParseResult.null => Except.error (Caught.error nullAccessError)
      | ParseResult.object field =>
        if (field "intent").truthy && (field "action").truthy then
          Except.ok { intent := field "intent", action := field "action",
                      confidence := field "confidence" }
        else Except.error
          (Caught.error { message := "Intent detection failed: missing required fields" })
    else Except.error (Caught.error { message := "Intent detection failed: empty text" })

/-- Intent detection with its `catch` block (lines 303-335): `Except.ok
none` is the early `return` of the busy message on a quota error,
`Except.error` is what leaves the `catch` block, a `TypeError` it raises
itself. -/
def detectIntent (ai : Collaborators) (prompt : String) (w : World) :
    Except Caught (Option Intent) × World :=
  let (result, w1) := generateContent ai prompt w
  match parseIntent ai result with
  | Except.ok intent => (Except.ok (some intent), w1)
  | Except.error caught =>
    match quotaCheck caught with
    | Except.ok true => (Except.ok none, w1)
    | Except.ok false => (Except.ok (some defaultIntent), w1)
    | Except.error e => (Except.error (Caught.error e), w1)

/-- The email branch (lines 342-408): `some reply` is a `return`, `none`
means the branch is not taken or falls through. Every statement that can
raise is inside one of its two `try` blocks, so the branch does not
raise. -/
def emailStage (env : Env) (ai : Collaborators) (intent : Intent) (userMessage : String)
    (chatId : Int) (w : World) : Option String × World :=
  if intent.intent = JsVal.str "send_email" ∧ ai.emailTransporter.isSome then
    match extractEmail userMessage with
    | none => (some needAddressText, w)
    | some _ =>
      match extractEmailInfo ai userMessage w with
      | (Except.error _, w1) => (some extractionErrorText, w1)
      | (Except.ok none, w1) => (some noEmailInfoText, w1)
      | (Except.ok (some emailInfo), w1) =>
        if orElse emailInfo.to_ "" = "" then (none, w1)
        else
          let subject :=
            if emailInfo.subject.truthy then emailInfo.subject else JsVal.str "رسالة من واصل"
          let body := if emailInfo.body.truthy then emailInfo.body else JsVal.str "مرحباً!"
          let w2 := (sendMessage env chatId "📧 جاري الإرسال..." defaultRetries w1).2
          match sendEmail ai (orElse emailInfo.to_ "") subject body w2 with
          | (Except.ok emailSuccess, w3) =>
            if emailSuccess.truthy then
              (some (confirmationText (orElse emailInfo.to_ "") subject.shown body.shown), w3)
            else (some emailFailedText, w3)
          | (Except.error _, w3) => (some sendErrorText, w3)
  else (none, w)

/-- What the `try` block of the chat stage yields before the reply is
recorded (lines 465-476): the generated reply, or what it raises. -/
def chatAttempt (result : GenResult) : Except Caught String :=
  match result with
  | GenResult.throws e => Except.error (Caught.error e)
  | GenResult.rejects r => Except.error (Caught.other r)
  | GenResult.noResponse => Except.error (Caught.error { message := "AI response is empty" })
  | GenResult.text aiReply =>
    if hasText aiReply then Except.ok aiReply
    else Except.error (Caught.error { message := "AI returned empty reply" })

/-- The chat stage (lines 437-503): the reply is generated and recorded as
an assistant turn, or a fallback text is returned, or the `catch` block
raises a `TypeError`. `session` is the session object of the chat. -/
def chatStage (env : Env) (ai : Collaborators) (session : UserSession)
    (conversationContext userMessage userName : String) (chatId : Int) (w : World) :
    Except Caught String × World :=
  let (result, w1) := generateContent ai
    (chatPrompt ai.emailTransporter.isSome conversationContext userName userMessage) w
  match chatAttempt result with
  | Except.ok aiReply =>
    let (t1, w2) := dateNow env w1
    let (t2, w3) := dateNow env w2
    let session1 := session.addMessage "assistant" aiReply t1 t2
    (Except.ok aiReply,
     { w3 with userSessions := Sessions.set w3.userSessions chatId session1 })
  | Except.error caught =>
    match quotaCheck caught with
    | Except.ok true => (Except.ok (quotaText userName), w1)
    | Except.ok false => (Except.ok (genericText userName), w1)
    | Except.error e => (Except.error (Caught.error e), w1)

/-- The Act stage and what follows it (lines 339-503), for a given
intent. -/
def actStage (env : Env) (ai : Collaborators) (intent : Intent) (session : UserSession)
    (conversationContext userMessage userName : String) (chatId : Int) (w : World) :
    Except Caught String × World :=
  match emailStage env ai intent userMessage chatId w with
  | (some reply, w1) => (Except.ok reply, w1)
  | (none, w1) =>
    if intent.intent = JsVal.str "help" ∨ includes (ai.toLowerCase userMessage) "مساعدة" ∨
        includes (ai.toLowerCase userMessage) "help" then
      (Except.ok helpText, w1)
    else chatStage env ai session conversationContext userMessage userName chatId w1

/-- The outermost `catch` of `getAIReply` (lines 505-519): what the `try`
block returns is returned; what it raises is caught, `error.message` is
logged, which raises a `TypeError` when the caught value is `null` or
`undefined`, and `unexpectedText` is returned. -/
def outerCatch (userName : String) (outcome : Except Caught String × World) :
    Except JsError String × World :=
  match outcome with
  | (Except.ok reply, w) => (Except.ok reply, w)
  | (Except.error (Caught.other Rejection.nullish), w) => (Except.error nullAccessError, w)
  | (Except.error _, w) => (Except.ok (unexpectedText userName), w)

/-- The `try` block of `getAIReply` (lines 274-503): the reply it returns,
or the error that leaves it. -/
def replyAttempt (env : Env) (ai : Collaborators) (userMessage userName : String)
    (chatId : Int) (w : World) : Except Caught String × World :=
  let (session, w1) := recordTurn env userMessage userName chatId w
  let conversationContext := conversationContextOf session
  match detectIntent ai (intentPrompt conversationContext userMessage) w1 with
  | (Except.error e, w2) => (Except.error e, w2)
  | (Except.ok none, w2) => (Except.ok busyText, w2)
  | (Except.ok (some intent), w2) =>
    actStage env ai intent session conversationContext userMessage userName chatId w2

/-- The function `getAIReply(userMessage, userName, chatId)`: its `try`
block under its outermost `catch`. -/
def getAIReply (env : Env) (ai : Collaborators) : Pipeline :=
  fun userMessage userName chatId w =>
    outerCatch userName (replyAttempt env ai userMessage userName chatId w)

/-- The prompt `getAIReply` sends to the model for intent detection. -/
def classificationPrompt (env : Env) (userMessage userName : String) (chatId : Int)
    (w : World) : String :=
  intentPrompt (conversationContextOf (recordTurn env userMessage userName chatId w).1)
    userMessage

/-- The state of `getAIReply` right after the call to the model for intent
detection: the user turn is recorded and the call is in the trace. -/
def afterClassification (env : Env) (userMessage userName : String) (chatId : Int)
    (w : World) : World :=
  { (recordTurn env userMessage userName chatId w).2 with
    events := (recordTurn env userMessage userName chatId w).2.events ++
      [Event.generate (classificationPrompt env userMessage userName chatId w)] }

/-- What `getAIReply` returns once intent detection has produced `intent`:
the Act stage and what follows it, run after the classification call,
under the outermost `catch`. -/
def continueWith (env : Env) (ai : Collaborators) (intent : Intent)
    (userMessage userName : String) (chatId : Int) (w : World) :
    Except JsError String × World :=
  outerCatch userName
    (actStage env ai intent (recordTurn env userMessage userName chatId w).1
      (conversationContextOf (recordTurn env userMessage userName chatId w).1)
      userMessage userName chatId (afterClassification env userMessage userName chatId w))

/-! ## Example data -/

/-- A clock that always reads 4 000 000 ms. -/
def envLate : Env := { clock := fun _ => 4000000, post := fun _ => true }

/-- A session last active at time `t`, created at time 0. -/
def sessionAt (chatId : Int) (t : Int) : UserSession :=
  { chatId := chatId, userName := "A", history := [], context := [],
    createdAt := 0, lastActivity := t }

/-- Three sessions: idle for 4 000 000 ms, for exactly one hour, and for 1 ms
when the clock reads 4 000 000. -/
def worldThree : World :=
  { userSessions := [(1, sessionAt 1 0), (2, sessionAt 2 400000), (3, sessionAt 3 3999999)],
    ticks := 0, posts := 0, events := [] }

/-- A chat transport whose first two posts fail and whose later posts
succeed. -/
def envFailTwice : Env := { clock := fun _ => 0, post := fun k => decide (2 ≤ k) }

/-- The state before anything happened. -/
def worldEmpty : World := { userSessions := [], ticks := 0, posts := 0, events := [] }

/-- A pipeline that answers "pong" and touches nothing. -/
def pipelinePong : Pipeline := fun _ _ _ w => (Except.ok "pong", w)

/-- A session with one turn and one context entry. -/
def sessionBusy : UserSession :=
  { chatId := 1, userName := "A",
    history := [{ role := "user", content := "hi", timestamp := 6 }],
    context := [("awaiting", "recipient")], createdAt := 5, lastActivity := 9 }

/-- A state whose only session is `sessionBusy`. -/
def worldBusy : World :=
  { userSessions := [(1, sessionBusy)], ticks := 0, posts := 0, events := [] }

/-- A message from user "A" in chat 1 with the given `text` field. -/
def messageWith (text : Option String) : Message :=
  { chat := some { id := 1 }, from_ := some { first_name := some "A" }, text := text }

/-- A photo message: chat and sender present, no `text` field. -/
def photoMessage : Message := messageWith none

/-- A handler that raises on the text "boom" and, raising or not, leaves a
trace of the text it was given. -/
def handlerBoom : Handler := fun msg w =>
  (if msg.text = some "boom" then some { message := "boom" } else none,
   { w with events := w.events ++ [Event.post 0 (orElse msg.text "") true] })

/-- The poller state before anything happened, with cursor `c`. -/
def botAt (c : Int) : BotState := { lastUpdateId := c, world := worldEmpty }

/-- The text of the scenario. -/
def thanksText : String := "ابعت شكر لـ boss@company.com"

/-- The fields of a parsed answer with the given `intent`, `action`,
`subject` and `body`. -/
def fieldsOf (intent action subject body : JsVal) : String → JsVal := fun name =>
  if name = "intent" then intent
  else if name = "action" then action
  else if name = "subject" then subject
  else if name = "body" then body
  else JsVal.undefined

/-- Collaborators for the email scenario: the first answer of the model
classifies the message as `send_email`, the second gives a subject and a
body, later answers are "pong"; `sendMail` ends as given. -/
def aiEmail (mailResult : MailResult) : Collaborators :=
  { generate := fun k =>
      if k = 0 then GenResult.text "INTENT"
      else if k = 1 then GenResult.text "EXTRACTION"
      else GenResult.text "pong",
    parse := fun s =>
      if s = "INTENT" then
        ParseResult.object (fieldsOf (JsVal.str "send_email") (JsVal.str "execute")
          JsVal.undefined JsVal.undefined)
      else if s = "EXTRACTION" then
        ParseResult.object (fieldsOf JsVal.undefined JsVal.undefined
          (JsVal.str "Thanks") (JsVal.str "Thank you!"))
      else ParseResult.throws { message := "Unexpected token" },
    toLowerCase := fun s => s,
    emailTransporter := some (fun _ => mailResult) }

/-- Collaborators whose model answers the classification with a text that
`JSON.parse` rejects, with the message V8 gives for the input
`quota exceeded`; later answers are "pong". -/
def aiQuotaText : Collaborators :=
  { generate := fun k => if k = 0 then GenResult.text "quota exceeded" else GenResult.text "pong",
    parse := fun _ => ParseResult.throws
      { message := "Unexpected token \x27q\x27, \"quota exceeded\" is not valid JSON" },
    toLowerCase := fun s => s,
    emailTransporter := none }

/-- Collaborators whose model is over its quota: every call raises the
error of an HTTP 429 answer. -/
def aiBusy : Collaborators :=
  { generate := fun _ =>
      GenResult.throws { message := "[429 Too Many Requests] Resource has been exhausted" },
    parse := fun _ => ParseResult.null,
    toLowerCase := fun s => s,
    emailTransporter := none }

/-- Collaborators whose model gives no response to the classification and
answers "pong" afterwards. -/
def aiSilent : Collaborators :=
  { generate := fun k => if k = 0 then GenResult.noResponse else GenResult.text "pong",
    parse := fun _ => ParseResult.null,
    toLowerCase := fun s => s,
    emailTransporter := none }

/-- Collaborators whose model rejects every call with `null`. -/
def aiNull : Collaborators :=
  { generate := fun _ => GenResult.rejects Rejection.nullish,
    parse := fun _ => ParseResult.null,
    toLowerCase := fun s => s,
    emailTransporter := none }

/-- Collaborators whose model gives no response to the classification and
rejects the call of the chat stage with `null`. -/
def aiChatNull : Collaborators :=
  { generate := fun k =>
      if k = 0 then GenResult.noResponse else GenResult.rejects Rejection.nullish,
    parse := fun _ => ParseResult.null,
    toLowerCase := fun s => s,
    emailTransporter := none }

/-- Collaborators for the email scenario whose model classifies the message
as `send_email` and rejects the extraction call with a value that has no
`message`. -/
def aiExtractionRejects : Collaborators :=
  { generate := fun k =>
      if k = 0 then GenResult.text "INTENT" else GenResult.rejects Rejection.noMessage,
    parse := fun _ =>
      ParseResult.object (fieldsOf (JsVal.str "send_email") (JsVal.str "execute")
        JsVal.undefined JsVal.undefined),
    toLowerCase := fun s => s,
    emailTransporter := some (fun _ => MailResult.sent (JsVal.str "<1@mail>")) }

/-! ## Theorems -/

theorem sliceLast_length {α : Type} (k : Nat) (xs : List α) :
    (sliceLast k xs).length = min xs.length k := by
  unfold sliceLast
  rw [List.length_drop]
  omega

theorem sliceLast_of_length_le {α : Type} (k : Nat) (xs : List α) (h : xs.length ≤ k) :
    sliceLast k xs = xs := by
  unfold sliceLast
  have : xs.length - k = 0 := by omega
  rw [this, List.drop_zero]

theorem sliceLast_append_sliceLast {α : Type} (k : Nat) (xs ys : List α) :
    sliceLast k (sliceLast k xs ++ ys) = sliceLast k (xs ++ ys) := by
  unfold sliceLast
  have hd : xs.length - k ≤ xs.length := Nat.sub_le _ _
  rw [← List.drop_append_of_le_length hd, List.drop_drop]
  congr 1
  simp only [List.length_append, List.length_drop]
  omega

/-! ### Session history -/

theorem addMessage_history (s : UserSession) (role content : String) (t1 t2 : Int) :
    (s.addMessage role content t1 t2).history =
      sliceLast 10 (s.history ++ [{ role := role, content := content, timestamp := t1 }]) := by
  unfold UserSession.addMessage
  simp only
  split
  · rfl
  · rw [sliceLast_of_length_le]
    omega

theorem addMessage_history_length (s : UserSession) (role content : String) (t1 t2 : Int) :
    (s.addMessage role content t1 t2).history.length ≤ 10 := by
  rw [addMessage_history, sliceLast_length]
  exact Nat.min_le_right _ _

theorem addMessages_history (calls : List AddCall) (s : UserSession)
    (hs : s.history.length ≤ 10) :
    (addMessages s calls).history = sliceLast 10 (s.history ++ calls.map AddCall.entry) := by
  induction calls generalizing s with
  | nil =>
    simp only [addMessages, List.foldl_nil, List.map_nil, List.append_nil]
    rw [sliceLast_of_length_le 10 s.history hs]
  | cons c cs ih =>
    have step : addMessages s (c :: cs) =
        addMessages (s.addMessage c.role c.content c.t1 c.t2) cs := rfl
    rw [step, ih _ (addMessage_history_length _ _ _ _ _), addMessage_history]
    rw [sliceLast_append_sliceLast]
    simp [AddCall.entry]

/-- C1. Starting from an empty history, after any sequence of `n` calls
to `addMessage` the history has length `min n 10` (so at most 10) and is
exactly the last `min n 10` pushed entries, in call order. -/
theorem addMessage_keeps_last_ten (s : UserSession) (calls : List AddCall)
    (hempty : s.history = []) :
    (addMessages s calls).history.length = min calls.length 10 ∧
    (addMessages s calls).history.length ≤ 10 ∧
    (addMessages s calls).history =
      (calls.map AddCall.entry).drop (calls.length - min calls.length 10) := by
  have h := addMessages_history calls s (by rw [hempty]; exact Nat.zero_le _)
  rw [hempty, List.nil_append] at h
  have hlen : (addMessages s calls).history.length = min calls.length 10 := by
    rw [h, sliceLast_length, List.length_map]
  refine ⟨hlen, ?_, ?_⟩
  · rw [hlen]; exact Nat.min_le_right _ _
  · rw [h]
    unfold sliceLast
    rw [List.length_map]
    congr 1
    omega

/-- C1, witness: twelve calls on a fresh session keep the last ten. -/
theorem addMessage_keeps_last_ten_witness :
    (UserSession.new 7 "A" 0 0).history = [] ∧
    (addMessages (UserSession.new 7 "A" 0 0)
      ((List.range 12).map (fun i => AddCall.mk "user" (toString i) i i))).history.length
      = min 12 10 :=
  ⟨rfl, by
    have h := (addMessage_keeps_last_ten (UserSession.new 7 "A" 0 0)
      ((List.range 12).map (fun i => AddCall.mk "user" (toString i) i i)) rfl).1
    simpa using h⟩

/-! ### Session store and idle sweep -/

theorem get_set_self (m : Store) (key : Int) (v : UserSession) :
    Sessions.get (Sessions.set m key v) key = some v := by
  induction m with
  | nil => simp [Sessions.set, Sessions.get]
  | cons e rest ih =>
    obtain ⟨k, old⟩ := e
    by_cases h : k = key
    · simp [Sessions.set, Sessions.get, h]
    · simp [Sessions.set, Sessions.get, h, ih]

theorem get_set_other (m : Store) (key other : Int) (v : UserSession) (h : other ≠ key) :
    Sessions.get (Sessions.set m key v) other = Sessions.get m other := by
  induction m with
  | nil =>
    have : ¬ key = other := fun e => h e.symm
    simp [Sessions.set, Sessions.get, this]
  | cons e rest ih =>
    obtain ⟨k, old⟩ := e
    by_cases hk : k = key
    · subst hk
      have : ¬ k = other := fun e => h e.symm
      simp [Sessions.set, Sessions.get, this]
    · by_cases ho : k = other
      · subst ho
        simp [Sessions.set, Sessions.get, hk]
      · simp [Sessions.set, Sessions.get, hk, ho, ih]

theorem delete_cons (k : Int) (v : UserSession) (rest : Store) (key : Int) :
    Sessions.delete ((k, v) :: rest) key =
      if k = key then Sessions.delete rest key else (k, v) :: Sessions.delete rest key := by
  unfold Sessions.delete
  by_cases h : k = key
  · simp [List.filter_cons, h]
  · simp [List.filter_cons, h]

theorem get_delete (m : Store) (key other : Int) :
    Sessions.get (Sessions.delete m key) other =
      if key = other then none else Sessions.get m other := by
  induction m with
  | nil => simp [Sessions.delete, Sessions.get]
  | cons e rest ih =>
    obtain ⟨k, v⟩ := e
    rw [delete_cons]
    by_cases hk : k = key
    · subst hk
      rw [if_pos rfl, ih]
      by_cases ho : k = other
      · rw [if_pos ho, if_pos ho]
      · rw [if_neg ho, if_neg ho]
        simp [Sessions.get, ho]
    · rw [if_neg hk]
      by_cases ho : k = other
      · subst ho
        have : ¬ key = k := fun e => hk e.symm
        simp [Sessions.get, this]
      · simp only [Sessions.get, if_neg ho]
        exact ih

theorem get_eq_none_of_not_mem (m : Store) (key : Int)
    (h : key ∉ m.map Prod.fst) : Sessions.get m key = none := by
  induction m with
  | nil => rfl
  | cons e rest ih =>
    obtain ⟨k, v⟩ := e
    simp only [List.map_cons, List.mem_cons, not_or] at h
    have hk : ¬ k = key := fun e => h.1 e.symm
    simp [Sessions.get, hk, ih h.2]

theorem get_of_mem (m : Store) (hwf : Sessions.WF m) (key : Int) (v : UserSession)
    (h : (key, v) ∈ m) : Sessions.get m key = some v := by
  induction m with
  | nil => simp at h
  | cons e rest ih =>
    obtain ⟨k, v0⟩ := e
    unfold Sessions.WF at hwf ih
    simp only [List.map_cons, List.nodup_cons] at hwf
    rcases List.mem_cons.mp h with heq | hmem
    · cases heq
      simp [Sessions.get]
    · have hne : ¬ k = key := by
        intro e
        subst e
        exact hwf.1 (List.mem_map_of_mem Prod.fst hmem)
      simp [Sessions.get, hne, ih hwf.2 hmem]

theorem mem_of_get (m : Store) (key : Int) (v : UserSession)
    (h : Sessions.get m key = some v) : (key, v) ∈ m := by
  induction m with
  | nil => simp [Sessions.get] at h
  | cons e rest ih =>
    obtain ⟨k, v0⟩ := e
    by_cases hk : k = key
    · subst hk
      simp [Sessions.get] at h
      subst h
      exact List.mem_cons_self _ _
    · simp [Sessions.get, hk] at h
      exact List.mem_cons_of_mem _ (ih h)

theorem sweepLoop_get (now : Int) (entries : List (Int × UserSession)) (m : Store)
    (key : Int) :
    Sessions.get (sweepLoop now entries m) key =
      if (∃ e ∈ entries, e.1 = key ∧ now - e.2.lastActivity > oneHour) then none
      else Sessions.get m key := by
  induction entries generalizing m with
  | nil => simp [sweepLoop]
  | cons e rest ih =>
    obtain ⟨chatId, session⟩ := e
    unfold sweepLoop
    by_cases hexp : now - session.lastActivity > oneHour
    · rw [if_pos hexp, ih, get_delete]
      by_cases hk : chatId = key
      · subst hk
        have : ∃ e ∈ (chatId, session) :: rest,
            e.1 = chatId ∧ now - e.2.lastActivity > oneHour :=
          ⟨(chatId, session), List.mem_cons_self _ _, rfl, hexp⟩
        rw [if_pos this]
        simp
      · by_cases hrest : ∃ e ∈ rest, e.1 = key ∧ now - e.2.lastActivity > oneHour
        · obtain ⟨e, he, h1, h2⟩ := hrest
          rw [if_pos ⟨e, he, h1, h2⟩, if_pos ⟨e, List.mem_cons_of_mem _ he, h1, h2⟩]
        · have hall : ¬ ∃ e ∈ (chatId, session) :: rest,
              e.1 = key ∧ now - e.2.lastActivity > oneHour := by
            rintro ⟨e, he, h1, h2⟩
            rcases List.mem_cons.mp he with heq | hmem
            · subst heq
              exact hk h1
            · exact hrest ⟨e, hmem, h1, h2⟩
          rw [if_neg hrest, if_neg hall, if_neg hk]
    · rw [if_neg hexp, ih]
      by_cases hrest : ∃ e ∈ rest, e.1 = key ∧ now - e.2.lastActivity > oneHour
      · obtain ⟨e, he, h1, h2⟩ := hrest
        rw [if_pos ⟨e, he, h1, h2⟩, if_pos ⟨e, List.mem_cons_of_mem _ he, h1, h2⟩]
      · have hall : ¬ ∃ e ∈ (chatId, session) :: rest,
            e.1 = key ∧ now - e.2.lastActivity > oneHour := by
          rintro ⟨e, he, h1, h2⟩
          rcases List.mem_cons.mp he with heq | hmem
          · subst heq
            exact hexp h2
          · exact hrest ⟨e, hmem, h1, h2⟩
        rw [if_neg hrest, if_neg hall]

/-- C2. One run of the idle sweep at time `now` (the clock reading it
takes) on a session map: a session idle for more than one hour is absent
afterwards, every other session (one idle for exactly one hour included)
is still present and unchanged, and no session appears. -/
theorem sessionSweep_keeps_exactly_recent (env : Env) (w : World)
    (hwf : Sessions.WF w.userSessions) (chatId : Int) :
    (∀ s, Sessions.get w.userSessions chatId = some s →
        env.clock w.ticks - s.lastActivity > oneHour →
        Sessions.get (sessionSweep env w).userSessions chatId = none) ∧
    (∀ s, Sessions.get w.userSessions chatId = some s →
        env.clock w.ticks - s.lastActivity ≤ oneHour →
        Sessions.get (sessionSweep env w).userSessions chatId = some s) ∧
    (Sessions.get w.userSessions chatId = none →
        Sessions.get (sessionSweep env w).userSessions chatId = none) := by
  have hsweep : (sessionSweep env w).userSessions =
      sweepLoop (env.clock w.ticks) w.userSessions w.userSessions := rfl
  rw [hsweep, sweepLoop_get]
  refine ⟨?_, ?_, ?_⟩
  · intro s hs hexp
    rw [if_pos ⟨(chatId, s), mem_of_get _ _ _ hs, rfl, hexp⟩]
  · intro s hs hfresh
    have hno : ¬ ∃ e ∈ w.userSessions,
        e.1 = chatId ∧ env.clock w.ticks - e.2.lastActivity > oneHour := by
      rintro ⟨⟨k, v⟩, he, h1, h2⟩
      simp only at h1 h2
      subst h1
      have := get_of_mem _ hwf _ _ he
      rw [hs] at this
      cases this
      exact absurd h2 (not_lt.mpr hfresh)
    rw [if_neg hno, hs]
  · intro hnone
    split
    · rfl
    · exact hnone

/-- C2, witness: with the clock at 4 000 000 ms the session idle for exactly
one hour survives the sweep. -/
theorem sessionSweep_keeps_exactly_recent_witness :
    Sessions.WF worldThree.userSessions ∧
    Sessions.get (sessionSweep envLate worldThree).userSessions 2 = some (sessionAt 2 400000) :=
  ⟨by decide,
   (sessionSweep_keeps_exactly_recent envLate worldThree (by decide) 2).2.1
     (sessionAt 2 400000) rfl (by decide)⟩

/-! ### Outbound Sender -/

theorem sendMessageLoop_frame (env : Env) (chatId : Int) (text : String) (retries : Nat)
    (left i : Nat) (w : World) :
    (sendMessageLoop env chatId text retries left i w).2.userSessions = w.userSessions ∧
    (sendMessageLoop env chatId text retries left i w).2.ticks = w.ticks := by
  induction left generalizing i w with
  | zero => exact ⟨rfl, rfl⟩
  | succ n ih =>
    unfold sendMessageLoop
    simp only
    split
    · exact ⟨rfl, rfl⟩
    · split
      · refine ⟨(ih _ _).1.trans rfl, (ih _ _).2.trans rfl⟩
      · exact ⟨rfl, rfl⟩

theorem sendMessage_userSessions (env : Env) (chatId : Int) (text : String) (retries : Nat)
    (w : World) :
    (sendMessage env chatId text retries w).2.userSessions = w.userSessions :=
  (sendMessageLoop_frame env chatId text retries retries 0 w).1

theorem sendMessage_ticks (env : Env) (chatId : Int) (text : String) (retries : Nat)
    (w : World) :
    (sendMessage env chatId text retries w).2.ticks = w.ticks :=
  (sendMessageLoop_frame env chatId text retries retries 0 w).2

/-- C6. `sendMessage` with the default retry count 3 posts until the first
success and at most 3 times: success at attempt `k + 1` (`k ≤ 2`) returns
`true` after exactly `k + 1` posts, three failures return `false` after
exactly 3 posts, and the wait after the `j`-th failed attempt is
`j * 1000` ms for `j = 1, 2`, with no wait after the last attempt. -/
theorem sendMessage_retries (env : Env) (chatId : Int) (text : String) (w : World) :
    (env.post w.posts = true →
      sendMessage env chatId text defaultRetries w =
        (some true, { w with
          posts := w.posts + 1,
          events := w.events ++ [Event.post chatId text true] })) ∧
    (env.post w.posts = false → env.post (w.posts + 1) = true →
      sendMessage env chatId text defaultRetries w =
        (some true, { w with
          posts := w.posts + 2,
          events := w.events ++ [Event.post chatId text false, Event.wait 1000,
            Event.post chatId text true] })) ∧
    (env.post w.posts = false → env.post (w.posts + 1) = false →
      env.post (w.posts + 2) = true →
      sendMessage env chatId text defaultRetries w =
        (some true, { w with
          posts := w.posts + 3,
          events := w.events ++ [Event.post chatId text false, Event.wait 1000,
            Event.post chatId text false, Event.wait 2000,
            Event.post chatId text true] })) ∧
    (env.post w.posts = false → env.post (w.posts + 1) = false →
      env.post (w.posts + 2) = false →
      sendMessage env chatId text defaultRetries w =
        (some false, { w with
          posts := w.posts + 3,
          events := w.events ++ [Event.post chatId text false, Event.wait 1000,
            Event.post chatId text false, Event.wait 2000,
            Event.post chatId text false] })) := by
  refine ⟨?_, ?_, ?_, ?_⟩
  · intro h0
    simp [sendMessage, defaultRetries, sendMessageLoop, h0]
  · intro h0 h1
    simp [sendMessage, defaultRetries, sendMessageLoop, h0, h1]
  · intro h0 h1 h2
    simp [sendMessage, defaultRetries, sendMessageLoop, h0, h1, h2, Nat.add_assoc]
  · intro h0 h1 h2
    simp [sendMessage, defaultRetries, sendMessageLoop, h0, h1, h2, Nat.add_assoc]

/-- C6, witness: a transport that fails twice and then succeeds yields
`true` after exactly 3 posts, with waits of 1000 ms and then 2000 ms. -/
theorem sendMessage_retries_witness :
    sendMessage envFailTwice 7 "hi" defaultRetries worldEmpty =
      (some true, { worldEmpty with
        posts := worldEmpty.posts + 3,
        events := worldEmpty.events ++ [Event.post 7 "hi" false, Event.wait 1000,
          Event.post 7 "hi" false, Event.wait 2000, Event.post 7 "hi" true] }) :=
  (sendMessage_retries envFailTwice 7 "hi" worldEmpty).2.2.1
    (by decide) (by decide) (by decide)

/-! ### Dispatcher: command handlers -/

theorem getUserSession_of_get (env : Env) (chatId : Int) (userName : String) (w : World)
    (s : UserSession) (hs : Sessions.get w.userSessions chatId = some s) :
    getUserSession env chatId userName w = (s, w) := by
  unfold getUserSession
  rw [hs]

theorem handleMessage_clear (env : Env) (getAIReply : Pipeline) (msg : Message)
    (chat : Chat) (sender : User) (w : World)
    (hchat : msg.chat = some chat) (hfrom : msg.from_ = some sender)
    (hroute : route (orElse msg.text "") = Route.clear) :
    handleMessage env getAIReply (some msg) w =
      (sendMessage env chat.id clearedText defaultRetries
        { (getUserSession env chat.id (orElse sender.first_name "Friend") w).2 with
          userSessions := Sessions.set
            (getUserSession env chat.id (orElse sender.first_name "Friend") w).2.userSessions
            chat.id
            { (getUserSession env chat.id (orElse sender.first_name "Friend") w).1 with
              history := [], context := [] } }).2 := by
  unfold handleMessage
  simp only [hchat, hfrom, hroute]
  rfl

theorem handleMessage_status (env : Env) (getAIReply : Pipeline) (msg : Message)
    (chat : Chat) (sender : User) (w : World)
    (hchat : msg.chat = some chat) (hfrom : msg.from_ = some sender)
    (hroute : route (orElse msg.text "") = Route.status) :
    handleMessage env getAIReply (some msg) w =
      (sendMessage env chat.id
        (statusText (getUserSession env chat.id (orElse sender.first_name "Friend") w).1.history.length
          (Int.fdiv
            (env.clock (getUserSession env chat.id (orElse sender.first_name "Friend") w).2.ticks -
              (getUserSession env chat.id (orElse sender.first_name "Friend") w).1.createdAt)
            60000))
        defaultRetries
        (dateNow env (getUserSession env chat.id (orElse sender.first_name "Friend") w).2).2).2 := by
  unfold handleMessage
  simp only [hchat, hfrom, hroute]
  rfl

theorem handleMessage_reply (env : Env) (getAIReply : Pipeline) (msg : Message)
    (chat : Chat) (sender : User) (w : World)
    (hchat : msg.chat = some chat) (hfrom : msg.from_ = some sender)
    (hroute : route (orElse msg.text "") = Route.reply) :
    handleMessage env getAIReply (some msg) w =
      (sendMessage env chat.id
        (match (getAIReply (orElse msg.text "") (orElse sender.first_name "Friend")
            chat.id w).1 with
          | Except.ok reply => reply
          | Except.error _ => processingErrorText (orElse sender.first_name "Friend"))
        defaultRetries
        (getAIReply (orElse msg.text "") (orElse sender.first_name "Friend") chat.id w).2).2 := by
  unfold handleMessage
  simp only [hchat, hfrom, hroute]
  rcases hp : getAIReply (orElse msg.text "") (orElse sender.first_name "Friend") chat.id w
    with ⟨r, w1⟩
  cases r <;> rfl

/-- C7. Handling the clear command for a chat that has a session empties
the history and the context of that session, keeps it in the map, leaves
its `createdAt`, `lastActivity`, `chatId` and `userName` as they were, and
leaves every other session untouched. -/
theorem clear_command_resets_session (env : Env) (getAIReply : Pipeline) (msg : Message)
    (chat : Chat) (sender : User) (w : World) (s : UserSession)
    (hchat : msg.chat = some chat) (hfrom : msg.from_ = some sender)
    (htext : msg.text = some "/clear" ∨ msg.text = some "امسح" ∨ msg.text = some "clear")
    (hs : Sessions.get w.userSessions chat.id = some s) :
    (∃ s1, Sessions.get (handleMessage env getAIReply (some msg) w).userSessions chat.id
        = some s1 ∧
      s1.history = [] ∧ s1.context = [] ∧
      s1.createdAt = s.createdAt ∧ s1.lastActivity = s.lastActivity ∧
      s1.chatId = s.chatId ∧ s1.userName = s.userName) ∧
    (∀ other, other ≠ chat.id →
      Sessions.get (handleMessage env getAIReply (some msg) w).userSessions other =
        Sessions.get w.userSessions other) := by
  have hroute : route (orElse msg.text "") = Route.clear := by
    rcases htext with h | h | h <;> rw [h] <;> decide
  rw [handleMessage_clear env getAIReply msg chat sender w hchat hfrom hroute,
    sendMessage_userSessions, getUserSession_of_get env _ _ w s hs]
  refine ⟨⟨_, get_set_self _ _ _, rfl, rfl, rfl, rfl, rfl, rfl⟩, ?_⟩
  intro other hne
  exact get_set_other _ _ _ _ hne

/-- C7, witness: `/clear` on a session with one turn and one context
entry. -/
theorem clear_command_resets_session_witness :
    Sessions.get worldBusy.userSessions 1 = some sessionBusy ∧
    ∃ s1, Sessions.get
        (handleMessage envLate pipelinePong (some (messageWith (some "/clear")))
          worldBusy).userSessions 1 = some s1 ∧
      s1.history = [] ∧ s1.context = [] ∧
      s1.createdAt = sessionBusy.createdAt ∧ s1.lastActivity = sessionBusy.lastActivity ∧
      s1.chatId = sessionBusy.chatId ∧ s1.userName = sessionBusy.userName :=
  ⟨rfl, (clear_command_resets_session envLate pipelinePong (messageWith (some "/clear"))
    { id := 1 } { first_name := some "A" } worldBusy sessionBusy rfl rfl (Or.inl rfl) rfl).1⟩

theorem sendMessageLoop_events (env : Env) (chatId : Int) (text : String) (retries : Nat)
    (left i : Nat) (w : World) :
    ∃ rest, (sendMessageLoop env chatId text retries (left + 1) i w).2.events =
      w.events ++ Event.post chatId text (env.post w.posts) :: rest := by
  induction left generalizing i w with
  | zero =>
    unfold sendMessageLoop
    simp only
    split
    · exact ⟨[], rfl⟩
    · split
      · exact ⟨[Event.wait (1000 * (i + 1))], by simp [sendMessageLoop]⟩
      · exact ⟨[], rfl⟩
  | succ n ih =>
    unfold sendMessageLoop
    simp only
    split
    · exact ⟨[], rfl⟩
    · split
      · obtain ⟨rest, hrest⟩ := ih (i + 1)
          { userSessions := w.userSessions, ticks := w.ticks, posts := w.posts + 1,
            events := w.events ++ [Event.post chatId text (env.post w.posts)] ++
              [Event.wait (1000 * (i + 1))] }
        refine ⟨Event.wait (1000 * (i + 1)) :: Event.post chatId text
          (env.post (w.posts + 1)) :: rest, ?_⟩
        rw [hrest]
        simp
      · exact ⟨[], rfl⟩

theorem sendMessage_first_event (env : Env) (chatId : Int) (text : String) (w : World) :
    ∃ rest, (sendMessage env chatId text defaultRetries w).2.events =
      w.events ++ Event.post chatId text (env.post w.posts) :: rest :=
  sendMessageLoop_events env chatId text 3 2 0 w

theorem getUserSession_of_none (env : Env) (chatId : Int) (userName : String) (w : World)
    (hnone : Sessions.get w.userSessions chatId = none) :
    getUserSession env chatId userName w =
      (UserSession.new chatId userName (env.clock w.ticks) (env.clock (w.ticks + 1)),
       { w with
         ticks := w.ticks + 2,
         userSessions := Sessions.set w.userSessions chatId
           (UserSession.new chatId userName (env.clock w.ticks) (env.clock (w.ticks + 1))) })
    := by
  unfold getUserSession
  rw [hnone]
  rfl

theorem statusText_zero (sessionAge : Int) :
    statusText 0 sessionAge =
      "📊 حالة الجلسة:\n\n💬 عدد الرسائل: 0\n⏱️ مدة الجلسة: " ++ toString sessionAge ++
        " دقيقة\n\n💡 لمسح الذاكرة: /clear" := by
  unfold statusText
  have h : "📊 حالة الجلسة:\n\n💬 عدد الرسائل: " ++ toString (0 : Nat) ++ "\n⏱️ مدة الجلسة: " =
      "📊 حالة الجلسة:\n\n💬 عدد الرسائل: 0\n⏱️ مدة الجلسة: " := by decide
  rw [h]

/-- C8. Handling the status command posts the report
`📊 … عدد الرسائل: <count> … مدة الجلسة: <age> دقيقة …` in which `<count>` is
`history.length` in decimal and `<age>` is the whole number of minutes
`floor((now - createdAt) / 60000)`, `now` being the clock reading the
handler takes. For a chat that has a session the session map (so every
field of the session) is left as it was, and a session with no turns and
younger than a minute gets the report with count 0 and age 0. For a chat
without a session the session is created first and reported with count 0
and the minutes between its creation and `now`, which is the report with
count 0 and age 0 when less than a minute passed. -/
theorem status_command_reports (env : Env) (getAIReply : Pipeline) (msg : Message)
    (chat : Chat) (sender : User) (w : World)
    (hchat : msg.chat = some chat) (hfrom : msg.from_ = some sender)
    (htext : msg.text = some "/status" ∨ msg.text = some "الحالة") :
    (∀ s, Sessions.get w.userSessions chat.id = some s →
      (∃ rest, (handleMessage env getAIReply (some msg) w).events =
        w.events ++ Event.post chat.id
          ("📊 حالة الجلسة:\n\n💬 عدد الرسائل: " ++ toString s.history.length ++
            "\n⏱️ مدة الجلسة: " ++
            toString (Int.fdiv (env.clock w.ticks - s.createdAt) 60000) ++
            " دقيقة\n\n💡 لمسح الذاكرة: /clear")
          (env.post w.posts) :: rest) ∧
      (60000 * Int.fdiv (env.clock w.ticks - s.createdAt) 60000 ≤
          env.clock w.ticks - s.createdAt ∧
        env.clock w.ticks - s.createdAt <
          60000 * (Int.fdiv (env.clock w.ticks - s.createdAt) 60000 + 1)) ∧
      (handleMessage env getAIReply (some msg) w).userSessions = w.userSessions ∧
      Sessions.get (handleMessage env getAIReply (some msg) w).userSessions chat.id = some s ∧
      (s.history = [] → 0 ≤ env.clock w.ticks - s.createdAt →
        env.clock w.ticks - s.createdAt < 60000 →
        ∃ rest, (handleMessage env getAIReply (some msg) w).events =
          w.events ++ Event.post chat.id
            "📊 حالة الجلسة:\n\n💬 عدد الرسائل: 0\n⏱️ مدة الجلسة: 0 دقيقة\n\n💡 لمسح الذاكرة: /clear"
            (env.post w.posts) :: rest)) ∧
    (Sessions.get w.userSessions chat.id = none →
      (∃ rest, (handleMessage env getAIReply (some msg) w).events =
        w.events ++ Event.post chat.id
          ("📊 حالة الجلسة:\n\n💬 عدد الرسائل: 0\n⏱️ مدة الجلسة: " ++
            toString (Int.fdiv (env.clock (w.ticks + 2) - env.clock w.ticks) 60000) ++
            " دقيقة\n\n💡 لمسح الذاكرة: /clear")
          (env.post w.posts) :: rest) ∧
      (handleMessage env getAIReply (some msg) w).userSessions =
        Sessions.set w.userSessions chat.id
          (UserSession.new chat.id (orElse sender.first_name "Friend")
            (env.clock w.ticks) (env.clock (w.ticks + 1))) ∧
      (0 ≤ env.clock (w.ticks + 2) - env.clock w.ticks →
        env.clock (w.ticks + 2) - env.clock w.ticks < 60000 →
        ∃ rest, (handleMessage env getAIReply (some msg) w).events =
          w.events ++ Event.post chat.id
            "📊 حالة الجلسة:\n\n💬 عدد الرسائل: 0\n⏱️ مدة الجلسة: 0 دقيقة\n\n💡 لمسح الذاكرة: /clear"
            (env.post w.posts) :: rest)) := by
  have hroute : route (orElse msg.text "") = Route.status := by
    rcases htext with h | h <;> rw [h] <;> decide
  refine ⟨?_, ?_⟩
  · intro s hs
    have hstore : (handleMessage env getAIReply (some msg) w).userSessions =
        w.userSessions := by
      rw [handleMessage_status env getAIReply msg chat sender w hchat hfrom hroute,
        sendMessage_userSessions, getUserSession_of_get env _ _ w s hs]
      rfl
    have hpost : ∃ rest, (handleMessage env getAIReply (some msg) w).events =
        w.events ++ Event.post chat.id
          ("📊 حالة الجلسة:\n\n💬 عدد الرسائل: " ++ toString s.history.length ++
            "\n⏱️ مدة الجلسة: " ++
            toString (Int.fdiv (env.clock w.ticks - s.createdAt) 60000) ++
            " دقيقة\n\n💡 لمسح الذاكرة: /clear")
          (env.post w.posts) :: rest := by
      rw [handleMessage_status env getAIReply msg chat sender w hchat hfrom hroute,
        getUserSession_of_get env _ _ w s hs]
      exact sendMessage_first_event env chat.id _ (dateNow env w).2
    refine ⟨hpost, ?_, hstore, ?_, ?_⟩
    · rw [Int.fdiv_eq_ediv _ (by decide)]
      omega
    · rw [hstore, hs]
    · intro hempty h0 h1
      rw [hempty, Int.fdiv_eq_ediv _ (by decide), Int.ediv_eq_zero_of_lt h0 h1] at hpost
      exact hpost
  · intro hnone
    have hpost : ∃ rest, (handleMessage env getAIReply (some msg) w).events =
        w.events ++ Event.post chat.id
          ("📊 حالة الجلسة:\n\n💬 عدد الرسائل: 0\n⏱️ مدة الجلسة: " ++
            toString (Int.fdiv (env.clock (w.ticks + 2) - env.clock w.ticks) 60000) ++
            " دقيقة\n\n💡 لمسح الذاكرة: /clear")
          (env.post w.posts) :: rest := by
      rw [handleMessage_status env getAIReply msg chat sender w hchat hfrom hroute,
        getUserSession_of_none env _ _ w hnone, ← statusText_zero]
      exact sendMessage_first_event env chat.id _ _
    refine ⟨hpost, ?_, ?_⟩
    · rw [handleMessage_status env getAIReply msg chat sender w hchat hfrom hroute,
        getUserSession_of_none env _ _ w hnone, sendMessage_userSessions]
      rfl
    · intro h0 h1
      rw [Int.fdiv_eq_ediv _ (by decide), Int.ediv_eq_zero_of_lt h0 h1] at hpost
      exact hpost

/-- C8, witness: `/status` on a session with one turn, created 3 999 995 ms
before the clock reading, is reported with count 1 and age 66. -/
theorem status_command_reports_witness :
    Sessions.get worldBusy.userSessions 1 = some sessionBusy ∧
    ∃ rest, (handleMessage envLate pipelinePong (some (messageWith (some "/status")))
        worldBusy).events =
      worldBusy.events ++ Event.post 1
        "📊 حالة الجلسة:\n\n💬 عدد الرسائل: 1\n⏱️ مدة الجلسة: 66 دقيقة\n\n💡 لمسح الذاكرة: /clear"
        (envLate.post worldBusy.posts) :: rest :=
  ⟨rfl, ((status_command_reports envLate pipelinePong (messageWith (some "/status"))
    { id := 1 } { first_name := some "A" } worldBusy rfl rfl (Or.inl rfl)).1
    sessionBusy rfl).1⟩

/-! ### Dispatcher: routing -/

/-- C9, the code at the failing input: for a photo message (no `text`
field) `handleMessage` calls the Reply Pipeline with the empty text and
posts its reply (or the apology when it raises); with a pipeline that
answers "pong" the photo is answered with "pong". -/
theorem handleMessage_photo_reaches_pipeline (env : Env) (getAIReply : Pipeline)
    (w : World) :
    handleMessage env getAIReply (some photoMessage) w =
      (sendMessage env 1
        (match (getAIReply "" "A" 1 w).1 with
          | Except.ok reply => reply
          | Except.error _ => processingErrorText "A")
        defaultRetries (getAIReply "" "A" 1 w).2).2 ∧
    (∃ rest, (handleMessage env getAIReply (some photoMessage) w).events =
      (getAIReply "" "A" 1 w).2.events ++
        Event.post 1
          (match (getAIReply "" "A" 1 w).1 with
            | Except.ok reply => reply
            | Except.error _ => processingErrorText "A")
          (env.post (getAIReply "" "A" 1 w).2.posts) :: rest) ∧
    (handleMessage envLate pipelinePong (some photoMessage) worldEmpty).events =
      [Event.post 1 "pong" true] := by
  have h := handleMessage_reply env getAIReply photoMessage { id := 1 }
    { first_name := some "A" } w rfl rfl (by decide)
  have h1 : handleMessage env getAIReply (some photoMessage) w =
      (sendMessage env 1
        (match (getAIReply "" "A" 1 w).1 with
          | Except.ok reply => reply
          | Except.error _ => processingErrorText "A")
        defaultRetries (getAIReply "" "A" 1 w).2).2 := h
  refine ⟨h1, ?_, by decide⟩
  rw [h1]
  exact sendMessage_first_event env 1 _ _

theorem getUserSession_cases (env : Env) (chatId : Int) (userName : String) (w : World) :
    (∃ s, Sessions.get w.userSessions chatId = some s ∧
      getUserSession env chatId userName w = (s, w)) ∨
    (Sessions.get w.userSessions chatId = none ∧
      (getUserSession env chatId userName w).1.history = [] ∧
      (getUserSession env chatId userName w).2.userSessions =
        Sessions.set w.userSessions chatId (getUserSession env chatId userName w).1) := by
  cases hget : Sessions.get w.userSessions chatId with
  | some s => exact Or.inl ⟨s, rfl, getUserSession_of_get env chatId userName w s hget⟩
  | none =>
    refine Or.inr ⟨rfl, ?_, ?_⟩
    · unfold getUserSession
      rw [hget]
      rfl
    · unfold getUserSession
      rw [hget]
      rfl

theorem getUserSession_history (env : Env) (chatId : Int) (userName : String) (w : World)
    (key : Int) (s1 : UserSession)
    (h : Sessions.get (getUserSession env chatId userName w).2.userSessions key = some s1) :
    s1.history = [] ∨ Sessions.get w.userSessions key = some s1 := by
  rcases getUserSession_cases env chatId userName w with ⟨s, _, heq⟩ | ⟨_, hnew, hstore⟩
  · rw [heq] at h
    exact Or.inr h
  · rw [hstore] at h
    by_cases hk : key = chatId
    · subst hk
      rw [get_set_self] at h
      cases h
      exact Or.inl hnew
    · rw [get_set_other _ _ _ _ hk] at h
      exact Or.inr h

theorem route_clear_iff (text : String) :
    route text = Route.clear ↔ (text = "/clear" ∨ text = "امسح" ∨ text = "clear") := by
  unfold route
  constructor
  · intro h
    by_contra hn
    rw [if_neg hn] at h
    split at h <;> cases h
  · intro h
    rw [if_pos h]

theorem route_status_iff (text : String) :
    route text = Route.status ↔ (text = "/status" ∨ text = "الحالة") := by
  unfold route
  constructor
  · intro h
    split at h
    · cases h
    · by_contra hn
      rw [if_neg hn] at h
      cases h
  · intro h
    have hn : ¬ (text = "/clear" ∨ text = "امسح" ∨ text = "clear") := by
      rcases h with h | h <;> rw [h] <;> decide
    rw [if_neg hn, if_pos h]

theorem route_reply_iff (text : String) :
    route text = Route.reply ↔
      (text ≠ "/clear" ∧ text ≠ "امسح" ∧ text ≠ "clear" ∧
        text ≠ "/status" ∧ text ≠ "الحالة") := by
  unfold route
  constructor
  · intro h
    split at h
    · cases h
    · split at h
      · cases h
      · rename_i h1 h2
        simp only [not_or] at h1 h2
        exact ⟨h1.1, h1.2.1, h1.2.2, h2.1, h2.2⟩
  · rintro ⟨a, b, c, d, e⟩
    have h1 : ¬ (text = "/clear" ∨ text = "امسح" ∨ text = "clear") := by
      simp only [not_or]; exact ⟨a, b, c⟩
    have h2 : ¬ (text = "/status" ∨ text = "الحالة") := by
      simp only [not_or]; exact ⟨d, e⟩
    rw [if_neg h1, if_neg h2]

theorem orElse_some_empty (text : String) : orElse (some text) "" = text := by
  by_cases h : text = ""
  · simp [orElse, h]
  · simp [orElse, h]

/-- C10, counterexample: the text `clear`, which is none of `/clear`,
`امسح`, `/status`, `الحالة`, takes the clear branch: the history is emptied
and the reply "pong" of the pipeline is never produced. -/
theorem clear_without_slash_is_a_command :
    route "clear" = Route.clear ∧
    ("clear" : String) ≠ "/clear" ∧ ("clear" : String) ≠ "امسح" ∧
    ("clear" : String) ≠ "/status" ∧ ("clear" : String) ≠ "الحالة" ∧
    handleMessage envLate pipelinePong (some (messageWith (some "clear"))) worldBusy =
      { userSessions := [(1, { sessionBusy with history := [], context := [] })],
        ticks := 0, posts := 1, events := [Event.post 1 clearedText true] } := by
  decide

/-- C10 (amended). For a message with chat, sender and text: the text
takes the clear branch iff it is `/clear`, `امسح` or `clear`, the status
branch iff it is `/status` or `الحالة`, and the Reply Pipeline branch iff
it is none of the five; on the pipeline branch `getAIReply` is applied to
the text and its reply (or the apology when it raises) is sent; on a
command branch the outcome is the same whatever the pipeline is, and no
session gets a turn appended (its history is empty or as before). -/
theorem command_routing (env : Env) (getAIReply otherPipeline : Pipeline) (msg : Message)
    (chat : Chat) (sender : User) (text : String) (w : World)
    (hchat : msg.chat = some chat) (hfrom : msg.from_ = some sender)
    (htext : msg.text = some text) :
    (route text = Route.clear ↔ (text = "/clear" ∨ text = "امسح" ∨ text = "clear")) ∧
    (route text = Route.status ↔ (text = "/status" ∨ text = "الحالة")) ∧
    (route text = Route.reply ↔
      (text ≠ "/clear" ∧ text ≠ "امسح" ∧ text ≠ "clear" ∧
        text ≠ "/status" ∧ text ≠ "الحالة")) ∧
    (route text = Route.reply →
      handleMessage env getAIReply (some msg) w =
        (sendMessage env chat.id
          (match (getAIReply text (orElse sender.first_name "Friend") chat.id w).1 with
            | Except.ok reply => reply
            | Except.error _ => processingErrorText (orElse sender.first_name "Friend"))
          defaultRetries
          (getAIReply text (orElse sender.first_name "Friend") chat.id w).2).2) ∧
    (route text ≠ Route.reply →
      handleMessage env getAIReply (some msg) w =
        handleMessage env otherPipeline (some msg) w) ∧
    (route text ≠ Route.reply →
      ∀ key s1,
        Sessions.get (handleMessage env getAIReply (some msg) w).userSessions key = some s1 →
        s1.history = [] ∨ Sessions.get w.userSessions key = some s1) := by
  have horelse : orElse msg.text "" = text := by rw [htext, orElse_some_empty]
  refine ⟨route_clear_iff text, route_status_iff text, route_reply_iff text, ?_, ?_, ?_⟩
  · intro hr
    have h := handleMessage_reply env getAIReply msg chat sender w hchat hfrom
      (by rw [horelse]; exact hr)
    rw [horelse] at h
    exact h
  · intro hr
    cases hroute : route text with
    | clear =>
      rw [handleMessage_clear env getAIReply msg chat sender w hchat hfrom
          (by rw [horelse]; exact hroute),
        handleMessage_clear env otherPipeline msg chat sender w hchat hfrom
          (by rw [horelse]; exact hroute)]
    | status =>
      rw [handleMessage_status env getAIReply msg chat sender w hchat hfrom
          (by rw [horelse]; exact hroute),
        handleMessage_status env otherPipeline msg chat sender w hchat hfrom
          (by rw [horelse]; exact hroute)]
    | reply => exact absurd hroute hr
  · intro hr key s1 hget
    cases hroute : route text with
    | clear =>
      rw [handleMessage_clear env getAIReply msg chat sender w hchat hfrom
          (by rw [horelse]; exact hroute), sendMessage_userSessions] at hget
      simp only at hget
      by_cases hk : key = chat.id
      · subst hk
        rw [get_set_self] at hget
        cases hget
        exact Or.inl rfl
      · rw [get_set_other _ _ _ _ hk] at hget
        exact getUserSession_history env chat.id _ w key s1 hget
    | status =>
      rw [handleMessage_status env getAIReply msg chat sender w hchat hfrom
          (by rw [horelse]; exact hroute), sendMessage_userSessions] at hget
      exact getUserSession_history env chat.id _ w key s1 hget
    | reply => exact absurd hroute hr

/-- C10, witness: the localized clear command `امسح` from user "A" in
chat 1. -/
theorem command_routing_witness :
    (messageWith (some "امسح")).text = some "امسح" ∧
    (route "امسح" = Route.clear ↔
      (("امسح" : String) = "/clear" ∨ ("امسح" : String) = "امسح" ∨
        ("امسح" : String) = "clear")) :=
  ⟨rfl, (command_routing envLate pipelinePong pipelinePong (messageWith (some "امسح"))
    { id := 1 } { first_name := some "A" } "امسح" worldBusy rfl rfl rfl).1⟩

/-! ### Update Poller -/

theorem processUpdate_cursor (handler : Handler) (update : Update) (st : BotState) :
    (processUpdate handler update st).2.lastUpdateId = update.update_id := by
  unfold processUpdate
  cases update.message <;> rfl

theorem processUpdate_world (handler : Handler) (update : Update) (st : BotState) :
    (processUpdate handler update st).2.world =
      match update.message with
      | some msg => (handler msg st.world).2
      | none => st.world := by
  unfold processUpdate
  cases update.message <;> rfl

theorem processUpdates_cons (handler : Handler) (update : Update) (rest : List Update)
    (st : BotState) :
    processUpdates handler (update :: rest) st =
      processUpdates handler rest (processUpdate handler update st).2 := by
  rcases h : processUpdate handler update st with ⟨raised, st1⟩
  cases raised <;> simp [processUpdates, h]

theorem processUpdates_append (handler : Handler) (xs ys : List Update) (st : BotState) :
    processUpdates handler (xs ++ ys) st =
      processUpdates handler ys (processUpdates handler xs st) := by
  induction xs generalizing st with
  | nil => rfl
  | cons u rest ih =>
    rw [List.cons_append, processUpdates_cons, processUpdates_cons, ih]

theorem processUpdates_world (handler : Handler) (batch : List Update) (st : BotState) :
    (processUpdates handler batch st).world =
      (batch.filterMap Update.message).foldl (fun w msg => (handler msg w).2) st.world := by
  induction batch generalizing st with
  | nil => rfl
  | cons u rest ih =>
    rw [processUpdates_cons, ih, processUpdate_world, List.filterMap_cons]
    cases u.message <;> rfl

theorem processUpdates_cursor (handler : Handler) (batch : List Update) (st : BotState) :
    (processUpdates handler batch st).lastUpdateId =
      (batch.getLast?.map Update.update_id).getD st.lastUpdateId := by
  induction batch generalizing st with
  | nil => rfl
  | cons u rest ih =>
    rw [processUpdates_cons, ih, processUpdate_cursor, List.getLast?_cons]
    cases rest.getLast? <;> rfl

theorem processUpdates_cursor_ge (handler : Handler) (batch : List Update) (st : BotState)
    (hord : List.Chain (fun a b => a ≤ b) st.lastUpdateId (batch.map Update.update_id)) :
    st.lastUpdateId ≤ (processUpdates handler batch st).lastUpdateId := by
  induction batch generalizing st with
  | nil => exact le_refl _
  | cons u rest ih =>
    rw [List.map_cons, List.chain_cons] at hord
    rw [processUpdates_cons]
    have h1 := ih (processUpdate handler u st).2 (by rw [processUpdate_cursor]; exact hord.2)
    rw [processUpdate_cursor] at h1
    exact le_trans hord.1 h1

theorem processUpdates_cursor_step (handler : Handler) (batch : List Update)
    (st : BotState)
    (hord : List.Chain (fun a b => a ≤ b) st.lastUpdateId (batch.map Update.update_id))
    (n : Nat) :
    (processUpdates handler (batch.take n) st).lastUpdateId ≤
      (processUpdates handler (batch.take (n + 1)) st).lastUpdateId := by
  induction batch generalizing st n with
  | nil => simp [processUpdates]
  | cons u rest ih =>
    rw [List.map_cons, List.chain_cons] at hord
    cases n with
    | zero =>
      rw [List.take_zero, List.take_succ_cons, List.take_zero, processUpdates_cons]
      have hnil : ∀ st1 : BotState, processUpdates handler [] st1 = st1 := fun _ => rfl
      rw [hnil, hnil, processUpdate_cursor]
      exact hord.1
    | succ m =>
      rw [List.take_succ_cons, List.take_succ_cons, processUpdates_cons, processUpdates_cons]
      exact ih (processUpdate handler u st).2 (by rw [processUpdate_cursor]; exact hord.2) m

/-- C3, counterexample: for the batch with update ids 5 then 3 the cursor
ends at 3, which is not the maximum id 5 of the batch. -/
theorem cursor_is_not_the_maximum :
    (getUpdates (botHandler envLate pipelinePong)
      (PollResponse.updates [{ update_id := 5, message := none },
        { update_id := 3, message := none }]) (botAt 0)).2.lastUpdateId = 3 ∧
    ¬ (∀ u ∈ [({ update_id := 5, message := none } : Update),
        { update_id := 3, message := none }],
      u.update_id ≤ (getUpdates (botHandler envLate pipelinePong)
        (PollResponse.updates [{ update_id := 5, message := none },
          { update_id := 3, message := none }]) (botAt 0)).2.lastUpdateId) := by
  decide

/-- C3 (amended). After `getUpdates` has processed a non-empty batch the
cursor is the `update_id` of the last update of the batch, whether the
handlers returned or raised; when the ids of the batch are in
non-decreasing order this is the maximum id of the batch. -/
theorem cursor_is_last_update (handler : Handler) (batch : List Update) (st : BotState)
    (hne : batch ≠ []) :
    (getUpdates handler (PollResponse.updates batch) st).2.lastUpdateId =
      (batch.getLast hne).update_id ∧
    (batch.Pairwise (fun a b => a.update_id ≤ b.update_id) →
      (∀ u ∈ batch,
        u.update_id ≤ (getUpdates handler (PollResponse.updates batch) st).2.lastUpdateId) ∧
      (∃ u ∈ batch,
        u.update_id = (getUpdates handler (PollResponse.updates batch) st).2.lastUpdateId)) := by
  have hcur : (getUpdates handler (PollResponse.updates batch) st).2.lastUpdateId =
      (batch.getLast hne).update_id := by
    show (processUpdates handler batch st).lastUpdateId = _
    rw [processUpdates_cursor, List.getLast?_eq_getLast batch hne]
    rfl
  refine ⟨hcur, ?_⟩
  intro hord
  rw [hcur]
  refine ⟨?_, batch.getLast hne, List.getLast_mem hne, rfl⟩
  intro u hu
  rw [← List.dropLast_append_getLast hne] at hu hord
  rcases List.mem_append.mp hu with hmem | hlast
  · exact (List.pairwise_append.mp hord).2.2 u hmem _ (List.mem_singleton_self _)
  · rw [List.mem_singleton.mp hlast]

/-- C3, witness: a batch with ids 4 then 6, the first handled by a handler
that raises. -/
theorem cursor_is_last_update_witness :
    ([{ update_id := 4, message := some (messageWith (some "boom")) },
      { update_id := 6, message := none }] : List Update) ≠ [] ∧
    (getUpdates handlerBoom
      (PollResponse.updates [{ update_id := 4, message := some (messageWith (some "boom")) },
        { update_id := 6, message := none }]) (botAt 0)).2.lastUpdateId = 6 :=
  ⟨by decide, (cursor_is_last_update handlerBoom
    [{ update_id := 4, message := some (messageWith (some "boom")) },
      { update_id := 6, message := none }] (botAt 0) (by decide)).1⟩

/-- C4, counterexample: with the cursor at 10, a batch holding the single
update id 3 moves the cursor down to 3. -/
theorem cursor_can_decrease :
    ¬ ((botAt 10).lastUpdateId ≤
      (getUpdates (botHandler envLate pipelinePong)
        (PollResponse.updates [{ update_id := 3, message := none }])
        (botAt 10)).2.lastUpdateId) := by
  decide

/-- C4 (amended). When the ids of the batch are in non-decreasing order and
the first is not below the cursor, the cursor after `getUpdates` is not
below the cursor before, and the cursor after each further update of the
batch is not below the cursor before that update; a poll that does not
yield an array of updates leaves the cursor as it was. -/
theorem cursor_monotone_on_ordered_batch (handler : Handler) (batch : List Update)
    (st : BotState)
    (hord : List.Chain (fun a b => a ≤ b) st.lastUpdateId (batch.map Update.update_id)) :
    st.lastUpdateId ≤ (getUpdates handler (PollResponse.updates batch) st).2.lastUpdateId ∧
    (∀ n, (processUpdates handler (batch.take n) st).lastUpdateId ≤
      (processUpdates handler (batch.take (n + 1)) st).lastUpdateId) ∧
    (∀ response, (∀ b, response ≠ PollResponse.updates b) →
      (getUpdates handler response st).2.lastUpdateId = st.lastUpdateId) := by
  refine ⟨processUpdates_cursor_ge handler batch st hord,
    processUpdates_cursor_step handler batch st hord, ?_⟩
  intro response hresp
  cases response with
  | updates b => exact absurd rfl (hresp b)
  | conflict => rfl
  | timedOut => rfl
  | unreachable => rfl
  | failed => rfl
  | noData => rfl
  | notArray => rfl

/-- C4, witness: cursor 3 and a batch with ids 4 then 6. -/
theorem cursor_monotone_on_ordered_batch_witness :
    List.Chain (fun a b => a ≤ b) (botAt 3).lastUpdateId
      (([{ update_id := 4, message := some (messageWith (some "boom")) },
        { update_id := 6, message := none }] : List Update).map Update.update_id) ∧
    (botAt 3).lastUpdateId ≤
      (getUpdates handlerBoom
        (PollResponse.updates [{ update_id := 4, message := some (messageWith (some "boom")) },
          { update_id := 6, message := none }]) (botAt 3)).2.lastUpdateId :=
  ⟨List.Chain.cons (by decide) (List.Chain.cons (by decide) List.Chain.nil),
   (cursor_monotone_on_ordered_batch handlerBoom
    [{ update_id := 4, message := some (messageWith (some "boom")) },
      { update_id := 6, message := none }] (botAt 3)
    (List.Chain.cons (by decide) (List.Chain.cons (by decide) List.Chain.nil))).1⟩

/-- C5. For every batch and every handler, raising wherever it does,
`getUpdates` lets no exception out and the resulting state is the one
obtained by running the handler once on each update that carries a
message, in array order; in particular, when the handler raises on update
`u`, every later update with a message is still handled, once and in
order, starting from the state `u` left behind. -/
theorem getUpdates_isolates_failures (handler : Handler) (batch : List Update)
    (st : BotState) :
    (getUpdates handler (PollResponse.updates batch) st).1 = none ∧
    (getUpdates handler (PollResponse.updates batch) st).2.world =
      (batch.filterMap Update.message).foldl (fun w msg => (handler msg w).2) st.world ∧
    (∀ (earlier later : List Update) (u : Update) (msg : Message) (e : JsError),
      batch = earlier ++ u :: later → u.message = some msg →
      (handler msg (processUpdates handler earlier st).world).1 = some e →
      (getUpdates handler (PollResponse.updates batch) st).2.world =
        (later.filterMap Update.message).foldl (fun w m => (handler m w).2)
          (handler msg (processUpdates handler earlier st).world).2) := by
  refine ⟨rfl, processUpdates_world handler batch st, ?_⟩
  intro earlier later u msg e hbatch hmsg _
  show (processUpdates handler batch st).world = _
  rw [hbatch, processUpdates_append, processUpdates_cons, processUpdates_world,
    processUpdate_world, hmsg]

/-- C5, witness: the handler raises on the first update; the third update
is still handled. -/
theorem getUpdates_isolates_failures_witness :
    (handlerBoom (messageWith (some "boom")) (processUpdates handlerBoom [] (botAt 0)).world).1
      = some { message := "boom" } ∧
    (getUpdates handlerBoom
      (PollResponse.updates [{ update_id := 1, message := some (messageWith (some "boom")) },
        { update_id := 2, message := none },
        { update_id := 3, message := some (messageWith (some "hi")) }])
      (botAt 0)).2.world =
      ([{ update_id := 2, message := none },
        ({ update_id := 3, message := some (messageWith (some "hi")) } : Update)].filterMap
          Update.message).foldl (fun w m => (handlerBoom m w).2)
        (handlerBoom (messageWith (some "boom"))
          (processUpdates handlerBoom [] (botAt 0)).world).2 :=
  ⟨by decide, (getUpdates_isolates_failures handlerBoom
    [{ update_id := 1, message := some (messageWith (some "boom")) },
      { update_id := 2, message := none },
      { update_id := 3, message := some (messageWith (some "hi")) }] (botAt 0)).2.2
    [] [{ update_id := 2, message := none },
      { update_id := 3, message := some (messageWith (some "hi")) }]
    { update_id := 1, message := some (messageWith (some "boom")) }
    (messageWith (some "boom")) { message := "boom" } rfl rfl (by decide)⟩

/-! ### Address patterns -/

theorem longestRun_le (cls : Char → Bool) (input : List Char) :
    longestRun cls input ≤ input.length := by
  induction input with
  | nil => exact le_refl _
  | cons c cs ih =>
    unfold longestRun
    split
    · simp only [List.length_cons]; omega
    · exact Nat.zero_le _

theorem longestRun_take (cls : Char → Bool) (input : List Char) (j : Nat)
    (hj : j ≤ longestRun cls input) : ∀ x ∈ input.take j, cls x = true := by
  induction input generalizing j with
  | nil => intro x hx; simp at hx
  | cons c cs ih =>
    cases j with
    | zero => intro x hx; simp at hx
    | succ k =>
      unfold longestRun at hj
      by_cases hc : cls c = true
      · rw [if_pos hc] at hj
        intro x hx
        rw [List.take_succ_cons] at hx
        rcases List.mem_cons.mp hx with h | h
        · rw [h]; exact hc
        · exact ih k (by omega) x h
      · rw [if_neg hc] at hj
        omega

theorem le_longestRun (cls : Char → Bool) (u t : List Char)
    (hu : ∀ x ∈ u, cls x = true) : u.length ≤ longestRun cls (u ++ t) := by
  induction u with
  | nil => exact Nat.zero_le _
  | cons c cs ih =>
    have hc : cls c = true := hu c (List.mem_cons_self _ _)
    have := ih (fun x hx => hu x (List.mem_cons_of_mem _ hx))
    show (c :: cs).length ≤ longestRun cls (c :: (cs ++ t))
    unfold longestRun
    rw [if_pos hc, List.length_cons]
    omega

theorem backtrack_sound (cont : List Char → Option Nat) (input : List Char) (min : Nat)
    (k n : Nat) (h : backtrack cont input min k = some n) :
    ∃ j m, j ≤ k ∧ min ≤ j ∧ cont (input.drop j) = some m ∧ n = j + m := by
  induction k with
  | zero =>
    unfold backtrack at h
    by_cases hmin : min = 0
    · rw [if_pos hmin] at h
      exact ⟨0, n, le_refl _, by omega, by simpa using h, by omega⟩
    · rw [if_neg hmin] at h
      cases h
  | succ k ih =>
    unfold backtrack at h
    by_cases hlt : k + 1 < min
    · rw [if_pos hlt] at h
      cases h
    · rw [if_neg hlt] at h
      cases hc : cont (input.drop (k + 1)) with
      | some m =>
        rw [hc] at h
        simp only [Option.some.injEq] at h
        exact ⟨k + 1, m, le_refl _, by omega, hc, h.symm⟩
      | none =>
        rw [hc] at h
        obtain ⟨j, m, h1, h2, h3, h4⟩ := ih h
        exact ⟨j, m, by omega, h2, h3, h4⟩

theorem backtrack_complete (cont : List Char → Option Nat) (input : List Char) (min : Nat)
    (k j : Nat) (hjk : j ≤ k) (hmin : min ≤ j) (hj : (cont (input.drop j)).isSome = true) :
    (backtrack cont input min k).isSome = true := by
  induction k with
  | zero =>
    have hj0 : j = 0 := by omega
    subst hj0
    unfold backtrack
    rw [if_pos (by omega)]
    simpa using hj
  | succ k ih =>
    unfold backtrack
    rw [if_neg (by omega)]
    cases hc : cont (input.drop (k + 1)) with
    | some m => rfl
    | none =>
      simp only
      by_cases hjeq : j = k + 1
      · subst hjeq
        rw [hc] at hj
        cases hj
      · exact ih (by omega)

theorem matchItems_sound (items : List Item) (input : List Char) (n : Nat)
    (h : matchItems false items input = some n) :
    n ≤ input.length ∧ Lang items (input.take n) := by
  induction items generalizing input n with
  | nil =>
    simp only [matchItems, Bool.false_eq_true, if_false, Option.some.injEq] at h
    subst h
    exact ⟨Nat.zero_le _, rfl⟩
  | cons item rest ih =>
    cases item with
    | lit c =>
      cases input with
      | nil => simp [matchItems] at h
      | cons d ds =>
        unfold matchItems at h
        simp only at h
        by_cases hd : d = c
        · rw [if_pos hd] at h
          cases hm : matchItems false rest ds with
          | none => rw [hm] at h; cases h
          | some m =>
            rw [hm] at h
            simp only [Option.map_some', Option.some.injEq] at h
            subst h
            obtain ⟨h1, h2⟩ := ih ds m hm
            refine ⟨by simp only [List.length_cons]; omega, ?_⟩
            rw [List.take_succ_cons, hd]
            exact ⟨_, rfl, h2⟩
        · rw [if_neg hd] at h
          cases h
    | many cls min =>
      unfold matchItems at h
      obtain ⟨j, m, hjk, hmin, hcont, hn⟩ := backtrack_sound _ _ _ _ _ h
      obtain ⟨h1, h2⟩ := ih (input.drop j) m hcont
      have hjlen : j ≤ input.length := le_trans hjk (longestRun_le cls input)
      rw [List.length_drop] at h1
      subst hn
      refine ⟨by omega, input.take j, (input.drop j).take m, ?_, ?_, ?_, h2⟩
      · rw [List.take_add]
      · exact longestRun_take cls input j hjk
      · rw [List.length_take]; omega

theorem matchItems_complete (items : List Item) (s : List Char) (h : Lang items s) :
    (matchItems true items s).isSome = true := by
  induction items generalizing s with
  | nil =>
    unfold Lang at h
    subst h
    rfl
  | cons item rest ih =>
    cases item with
    | lit c =>
      obtain ⟨t, hs, ht⟩ := h
      subst hs
      have := ih t ht
      unfold matchItems
      simp only [if_true]
      cases hm : matchItems true rest t with
      | none => rw [hm] at this; cases this
      | some m => rfl
    | many cls min =>
      obtain ⟨u, t, hs, hu, hmin, ht⟩ := h
      subst hs
      unfold matchItems
      refine backtrack_complete _ _ _ _ u.length (le_longestRun cls u t hu) hmin ?_
      rw [List.drop_left]
      exact ih t ht

theorem firstMatch_sound (items : List Item) (input matched : List Char)
    (h : firstMatch items input = some matched) : Lang items matched := by
  induction input with
  | nil =>
    unfold firstMatch at h
    cases hm : matchItems false items [] with
    | none => rw [hm] at h; cases h
    | some n =>
      rw [hm] at h
      simp only [Option.map_some', Option.some.injEq] at h
      subst h
      exact (matchItems_sound items [] n hm).2
  | cons c cs ih =>
    unfold firstMatch at h
    cases hm : matchItems false items (c :: cs) with
    | none => rw [hm] at h; exact ih h
    | some n =>
      rw [hm] at h
      simp only [Option.some.injEq] at h
      subst h
      exact (matchItems_sound items (c :: cs) n hm).2

theorem isAddressChar_of_isLocalChar (c : Char) (h : isLocalChar c = true) :
    isAddressChar c = true := by
  simp only [isLocalChar, isAddressChar, isAlnumCode, isSpaceCode, decide_eq_true_eq] at *
  omega

theorem isAddressChar_of_isDomainChar (c : Char) (h : isDomainChar c = true) :
    isAddressChar c = true := by
  simp only [isDomainChar, isAddressChar, isAlnumCode, isSpaceCode, decide_eq_true_eq] at *
  omega

theorem isAddressChar_of_isLetter (c : Char) (h : isLetter c = true) :
    isAddressChar c = true := by
  simp only [isLetter, isAddressChar, isSpaceCode, decide_eq_true_eq] at *
  omega

theorem validPattern_of_extractPattern (s : List Char) (h : Lang extractPattern s) :
    Lang validPattern s := by
  obtain ⟨u1, t1, hs1, hu1, hm1, t2, ht1, u3, t3, ht2, hu3, hm3, t4, ht3, u5, t5, ht4, hu5,
    hm5, ht5⟩ := h
  exact ⟨u1, t1, hs1, fun x hx => isAddressChar_of_isLocalChar x (hu1 x hx), hm1, t2, ht1,
    u3, t3, ht2, fun x hx => isAddressChar_of_isDomainChar x (hu3 x hx), hm3, t4, ht3,
    u5, t5, ht4, fun x hx => isAddressChar_of_isLetter x (hu5 x hx), by omega, ht5⟩

theorem emailRegexTest_of_extractEmail (text address : String)
    (h : extractEmail text = some address) : emailRegexTest address = true := by
  unfold extractEmail at h
  cases hm : firstMatch extractPattern text.data with
  | none => rw [hm] at h; cases h
  | some matched =>
    rw [hm] at h
    simp only [Option.map_some', Option.some.injEq] at h
    subst h
    exact matchItems_complete validPattern matched
      (validPattern_of_extractPattern matched (firstMatch_sound _ _ _ hm))


theorem ne_of_take_ne (a b : String) (n : Nat) (h : a.data.take n ≠ b.data.take n) :
    a ≠ b := by
  intro e
  exact h (by rw [e])

theorem mailFailureMessage_ne_invalid (e : MailError) (address : String) :
    mailFailureMessage e ≠ "⚠️ Invalid email address: " ++ address := by
  apply ne_of_take_ne _ _ 4
  unfold mailFailureMessage
  have hr : ("⚠️ Invalid email address: " ++ address).data.take 4 = ['⚠', '️', ' ', 'I'] := by
    rw [String.data_append, List.take_append_of_le_length (by decide)]
    decide
  rw [hr]
  split
  · decide
  · split
    · decide
    · split
      · decide
      · rw [String.data_append, List.take_append_of_le_length (by decide)]
        decide

theorem nullAccessError_ne_invalid (address : String) :
    nullAccessError ≠ { message := "⚠️ Invalid email address: " ++ address } := by
  intro h
  have h2 : nullAccessError.message = "⚠️ Invalid email address: " ++ address := by rw [h]
  revert h2
  apply ne_of_take_ne _ _ 1
  rw [String.data_append, List.take_append_of_le_length (by decide)]
  decide

theorem sendEmail_of_valid (ai : Collaborators) (sendMail : Nat → MailResult)
    (to_ : String) (subject body : JsVal) (w : World)
    (hcfg : ai.emailTransporter = some sendMail) (hvalid : emailRegexTest to_ = true) :
    sendEmail ai to_ subject body w =
      (mailOutcome (sendMail (mailCalls w.events).length),
       { w with events := w.events ++ [Event.mail to_ subject.shown body.shown] }) := by
  unfold sendEmail
  rw [hcfg]
  simp only [hvalid, if_true]

theorem mailOutcome_ne_invalid (result : MailResult) (address : String) :
    mailOutcome result ≠
      Except.error { message := "⚠️ Invalid email address: " ++ address } := by
  cases result with
  | sent messageId => intro hc; cases hc
  | failed e =>
    intro hc
    simp only [mailOutcome, Except.error.injEq, JsError.mk.injEq] at hc
    exact mailFailureMessage_ne_invalid e address hc
  | rejects r e =>
    cases r with
    | nullish =>
      intro hc
      simp only [mailOutcome, Except.error.injEq] at hc
      exact nullAccessError_ne_invalid address hc
    | noMessage =>
      intro hc
      simp only [mailOutcome, Except.error.injEq, JsError.mk.injEq] at hc
      exact mailFailureMessage_ne_invalid e address hc
    | oddMessage =>
      intro hc
      simp only [mailOutcome, Except.error.injEq, JsError.mk.injEq] at hc
      exact mailFailureMessage_ne_invalid e address hc

/-- C17. Every address `extractEmail` returns passes the test of
`sendEmail`: with the email collaborator configured, `sendEmail` for that
address reaches `sendMail` and cannot raise the `Invalid email address`
error; and the `to` field of what `extractEmailInfo` returns is that
address. -/
theorem extractEmail_passes_validation (text address : String)
    (h : extractEmail text = some address) :
    emailRegexTest address = true ∧
    (∀ (ai : Collaborators) (sendMail : Nat → MailResult) (subject body : JsVal) (w : World),
      ai.emailTransporter = some sendMail →
      (sendEmail ai address subject body w).2.events =
          w.events ++ [Event.mail address subject.shown body.shown] ∧
        (sendEmail ai address subject body w).1 ≠
          Except.error { message := "⚠️ Invalid email address: " ++ address }) ∧
    (∀ (ai : Collaborators) (w w1 : World) (info : EmailInfo),
      extractEmailInfo ai text w = (Except.ok (some info), w1) → info.to_ = some address) := by
  have hvalid := emailRegexTest_of_extractEmail text address h
  refine ⟨hvalid, ?_, ?_⟩
  · intro ai sendMail subject body w hcfg
    rw [sendEmail_of_valid ai sendMail address subject body w hcfg hvalid]
    exact ⟨rfl, mailOutcome_ne_invalid _ address⟩
  · intro ai w w1 info hinfo
    unfold extractEmailInfo at hinfo
    simp only [generateContent] at hinfo
    rw [h] at hinfo
    split at hinfo
    · cases hinfo
    · cases hinfo
    · cases hinfo
    · cases hinfo
    · cases hinfo
    · split at hinfo
      · split at hinfo
        · cases hinfo
        · cases hinfo
        · split at hinfo
          · simp only [Prod.mk.injEq, Except.ok.injEq, Option.some.injEq] at hinfo
            rw [← hinfo.1]
          · cases hinfo
      · cases hinfo

/-- C17, witness: the address in the text of the scenario. -/
theorem extractEmail_passes_validation_witness :
    extractEmail "ابعت شكر لـ boss@company.com" = some "boss@company.com" ∧
    emailRegexTest "boss@company.com" = true :=
  ⟨by decide, (extractEmail_passes_validation "ابعت شكر لـ boss@company.com"
    "boss@company.com" (by decide)).1⟩

/-! ### Reply Pipeline: traces and stages -/

theorem generateCalls_append (xs ys : List Event) :
    generateCalls (xs ++ ys) = generateCalls xs ++ generateCalls ys := by
  induction xs with
  | nil => rfl
  | cons e rest ih => cases e <;> simp [generateCalls, ih]

theorem mailCalls_append (xs ys : List Event) :
    mailCalls (xs ++ ys) = mailCalls xs ++ mailCalls ys := by
  induction xs with
  | nil => rfl
  | cons e rest ih => cases e <;> simp [mailCalls, ih]

theorem sendMessageLoop_calls (env : Env) (chatId : Int) (text : String) (retries : Nat)
    (left i : Nat) (w : World) :
    generateCalls (sendMessageLoop env chatId text retries left i w).2.events =
      generateCalls w.events ∧
    mailCalls (sendMessageLoop env chatId text retries left i w).2.events =
      mailCalls w.events := by
  induction left generalizing i w with
  | zero => exact ⟨rfl, rfl⟩
  | succ n ih =>
    unfold sendMessageLoop
    simp only
    split
    · simp [generateCalls_append, mailCalls_append, generateCalls, mailCalls]
    · split
      · obtain ⟨h1, h2⟩ := ih (i + 1)
          { userSessions := w.userSessions, ticks := w.ticks, posts := w.posts + 1,
            events := w.events ++ [Event.post chatId text (env.post w.posts)] ++
              [Event.wait (1000 * (i + 1))] }
        rw [h1, h2]
        simp [generateCalls_append, mailCalls_append, generateCalls, mailCalls]
      · simp [generateCalls_append, mailCalls_append, generateCalls, mailCalls]

theorem sendMessage_generateCalls (env : Env) (chatId : Int) (text : String) (retries : Nat)
    (w : World) :
    generateCalls (sendMessage env chatId text retries w).2.events = generateCalls w.events :=
  (sendMessageLoop_calls env chatId text retries retries 0 w).1

theorem sendMessage_mailCalls (env : Env) (chatId : Int) (text : String) (retries : Nat)
    (w : World) :
    mailCalls (sendMessage env chatId text retries w).2.events = mailCalls w.events :=
  (sendMessageLoop_calls env chatId text retries retries 0 w).2

theorem getUserSession_events (env : Env) (chatId : Int) (userName : String) (w : World) :
    (getUserSession env chatId userName w).2.events = w.events := by
  unfold getUserSession
  cases Sessions.get w.userSessions chatId <;> rfl

theorem recordTurn_events (env : Env) (userMessage userName : String) (chatId : Int)
    (w : World) : (recordTurn env userMessage userName chatId w).2.events = w.events := by
  unfold recordTurn
  exact getUserSession_events env chatId userName w

theorem recordTurn_get (env : Env) (userMessage userName : String) (chatId : Int)
    (w : World) :
    Sessions.get (recordTurn env userMessage userName chatId w).2.userSessions chatId =
      some (recordTurn env userMessage userName chatId w).1 := by
  unfold recordTurn
  exact get_set_self _ _ _

theorem recordTurn_history (env : Env) (userMessage userName : String) (chatId : Int)
    (w : World) :
    (recordTurn env userMessage userName chatId w).1.history =
      sliceLast 10 ((getUserSession env chatId userName w).1.history ++
        [{ role := "user", content := userMessage,
           timestamp := env.clock (getUserSession env chatId userName w).2.ticks }]) := by
  unfold recordTurn
  exact addMessage_history _ _ _ _ _

theorem detectIntent_eq (ai : Collaborators) (prompt : String) (w : World) :
    detectIntent ai prompt w =
      ((match parseIntent ai (ai.generate (generateCalls w.events).length) with
        | Except.ok intent => Except.ok (some intent)
        | Except.error caught =>
          match quotaCheck caught with
          | Except.ok true => Except.ok none
          | Except.ok false => Except.ok (some defaultIntent)
          | Except.error e => Except.error (Caught.error e)),
       { w with events := w.events ++ [Event.generate prompt] }) := by
  unfold detectIntent generateContent
  simp only
  cases parseIntent ai (ai.generate (generateCalls w.events).length) with
  | ok intent => rfl
  | error caught =>
    simp only
    cases quotaCheck caught with
    | error e => rfl
    | ok b => cases b <;> rfl

theorem outerCatch_world (userName : String) (outcome : Except Caught String × World) :
    (outerCatch userName outcome).2 = outcome.2 := by
  rcases outcome with ⟨r, w⟩
  cases r with
  | ok reply => rfl
  | error c =>
    cases c with
    | error e => rfl
    | other r => cases r <;> rfl

theorem outerCatch_ok (userName : String) (outcome : Except Caught String × World)
    (reply : String) (h : outcome.1 = Except.ok reply) :
    (outerCatch userName outcome).1 = Except.ok reply := by
  rcases outcome with ⟨r, w⟩
  simp only at h
  subst h
  rfl

theorem outerCatch_error (userName : String) (outcome : Except Caught String × World)
    (e : JsError) (h : outcome.1 = Except.error (Caught.error e)) :
    (outerCatch userName outcome).1 = Except.ok (unexpectedText userName) := by
  rcases outcome with ⟨r, w⟩
  simp only at h
  subst h
  rfl

theorem getAIReply_eq (env : Env) (ai : Collaborators) (userMessage userName : String)
    (chatId : Int) (w : World) :
    getAIReply env ai userMessage userName chatId w =
      match parseIntent ai (ai.generate (generateCalls w.events).length) with
      | Except.ok intent => continueWith env ai intent userMessage userName chatId w
      | Except.error caught =>
        match quotaCheck caught with
        | Except.ok true =>
          (Except.ok busyText, afterClassification env userMessage userName chatId w)
        | Except.ok false => continueWith env ai defaultIntent userMessage userName chatId w
        | Except.error _ =>
          (Except.ok (unexpectedText userName),
           afterClassification env userMessage userName chatId w) := by
  have hd := detectIntent_eq ai (classificationPrompt env userMessage userName chatId w)
    (recordTurn env userMessage userName chatId w).2
  have hk : (generateCalls (recordTurn env userMessage userName chatId w).2.events).length =
      (generateCalls w.events).length := by rw [recordTurn_events]
  rw [hk] at hd
  have hdef : getAIReply env ai userMessage userName chatId w =
      outerCatch userName
        (match detectIntent ai (classificationPrompt env userMessage userName chatId w)
            (recordTurn env userMessage userName chatId w).2 with
        | (Except.error e, w2) => (Except.error e, w2)
        | (Except.ok none, w2) => (Except.ok busyText, w2)
        | (Except.ok (some intent), w2) =>
          actStage env ai intent (recordTurn env userMessage userName chatId w).1
            (conversationContextOf (recordTurn env userMessage userName chatId w).1)
            userMessage userName chatId w2) := rfl
  rw [hdef, hd]
  cases parseIntent ai (ai.generate (generateCalls w.events).length) with
  | ok intent => rfl
  | error caught =>
    simp only
    cases quotaCheck caught with
    | error e => rfl
    | ok b => cases b <;> rfl

theorem replyAttempt_eq (env : Env) (ai : Collaborators) (userMessage userName : String)
    (chatId : Int) (w : World) :
    replyAttempt env ai userMessage userName chatId w =
      match parseIntent ai (ai.generate (generateCalls w.events).length) with
      | Except.ok intent =>
        actStage env ai intent (recordTurn env userMessage userName chatId w).1
          (conversationContextOf (recordTurn env userMessage userName chatId w).1)
          userMessage userName chatId (afterClassification env userMessage userName chatId w)
      | Except.error caught =>
        match quotaCheck caught with
        | Except.ok true =>
          (Except.ok busyText, afterClassification env userMessage userName chatId w)
        | Except.ok false =>
          actStage env ai defaultIntent (recordTurn env userMessage userName chatId w).1
            (conversationContextOf (recordTurn env userMessage userName chatId w).1)
            userMessage userName chatId (afterClassification env userMessage userName chatId w)
        | Except.error e =>
          (Except.error (Caught.error e),
           afterClassification env userMessage userName chatId w) := by
  have hd := detectIntent_eq ai (classificationPrompt env userMessage userName chatId w)
    (recordTurn env userMessage userName chatId w).2
  have hk : (generateCalls (recordTurn env userMessage userName chatId w).2.events).length =
      (generateCalls w.events).length := by rw [recordTurn_events]
  rw [hk] at hd
  have hdef : replyAttempt env ai userMessage userName chatId w =
        (match detectIntent ai (classificationPrompt env userMessage userName chatId w)
            (recordTurn env userMessage userName chatId w).2 with
        | (Except.error e, w2) => (Except.error e, w2)
        | (Except.ok none, w2) => (Except.ok busyText, w2)
        | (Except.ok (some intent), w2) =>
          actStage env ai intent (recordTurn env userMessage userName chatId w).1
            (conversationContextOf (recordTurn env userMessage userName chatId w).1)
            userMessage userName chatId w2) := rfl
  rw [hdef, hd]
  cases parseIntent ai (ai.generate (generateCalls w.events).length) with
  | ok intent => rfl
  | error caught =>
    simp only
    cases quotaCheck caught with
    | error e => rfl
    | ok b => cases b <;> rfl

theorem extractEmailInfo_world (ai : Collaborators) (userMessage : String) (w : World) :
    (extractEmailInfo ai userMessage w).2 =
      { w with events := w.events ++
        [Event.generate (extractionPrompt userMessage (extractEmail userMessage))] } := by
  unfold extractEmailInfo generateContent
  simp only
  split
  · rfl
  · rfl
  · rfl
  · rfl
  · rfl
  · split
    · split
      · rfl
      · rfl
      · split <;> rfl
    · rfl

theorem sendEmail_userSessions (ai : Collaborators) (to_ : String) (subject body : JsVal)
    (w : World) : (sendEmail ai to_ subject body w).2.userSessions = w.userSessions := by
  unfold sendEmail
  split
  · rfl
  · split <;> rfl

theorem emailStage_userSessions (env : Env) (ai : Collaborators) (intent : Intent)
    (userMessage : String) (chatId : Int) (w : World) :
    (emailStage env ai intent userMessage chatId w).2.userSessions = w.userSessions := by
  unfold emailStage
  split
  · split
    · rfl
    · have hw := extractEmailInfo_world ai userMessage w
      rcases hx : extractEmailInfo ai userMessage w with ⟨info, w1⟩
      rw [hx] at hw
      simp only at hw
      subst hw
      cases info with
      | error e => rfl
      | ok found =>
        cases found with
        | none => rfl
        | some emailInfo =>
          simp only
          split
          · rfl
          · rcases hs : sendEmail ai (orElse emailInfo.to_ "")
              (if emailInfo.subject.truthy = true then emailInfo.subject
                else JsVal.str "رسالة من واصل")
              (if emailInfo.body.truthy = true then emailInfo.body else JsVal.str "مرحباً!")
              (sendMessage env chatId "📧 جاري الإرسال..." defaultRetries
                { userSessions := w.userSessions, ticks := w.ticks, posts := w.posts,
                  events := w.events ++
                    [Event.generate (extractionPrompt userMessage (extractEmail userMessage))] }).2
              with ⟨r, w3⟩
            have hu := sendEmail_userSessions ai (orElse emailInfo.to_ "")
              (if emailInfo.subject.truthy = true then emailInfo.subject
                else JsVal.str "رسالة من واصل")
              (if emailInfo.body.truthy = true then emailInfo.body else JsVal.str "مرحباً!")
              (sendMessage env chatId "📧 جاري الإرسال..." defaultRetries
                { userSessions := w.userSessions, ticks := w.ticks, posts := w.posts,
                  events := w.events ++
                    [Event.generate (extractionPrompt userMessage (extractEmail userMessage))] }).2
            rw [hs, sendMessage_userSessions] at hu
            simp only at hu
            cases r with
            | ok v =>
              simp only
              split <;> exact hu
            | error e => exact hu
  · rfl

theorem chatStage_eq (env : Env) (ai : Collaborators) (session : UserSession)
    (conversationContext userMessage userName : String) (chatId : Int) (w : World) :
    chatStage env ai session conversationContext userMessage userName chatId w =
      match chatAttempt (ai.generate (generateCalls w.events).length) with
      | Except.ok aiReply =>
        (Except.ok aiReply,
         { userSessions := Sessions.set w.userSessions chatId
             (session.addMessage "assistant" aiReply (env.clock w.ticks)
               (env.clock (w.ticks + 1))),
           ticks := w.ticks + 2, posts := w.posts,
           events := w.events ++ [Event.generate
             (chatPrompt ai.emailTransporter.isSome conversationContext userName
               userMessage)] })
      | Except.error caught =>
        ((match quotaCheck caught with
          | Except.ok true => Except.ok (quotaText userName)
          | Except.ok false => Except.ok (genericText userName)
          | Except.error e => Except.error (Caught.error e)),
         { w with events := w.events ++ [Event.generate
           (chatPrompt ai.emailTransporter.isSome conversationContext userName
             userMessage)] }) := by
  unfold chatStage generateContent
  simp only
  cases chatAttempt (ai.generate (generateCalls w.events).length) with
  | ok aiReply => rfl
  | error caught =>
    simp only
    cases quotaCheck caught with
    | error e => rfl
    | ok b => cases b <;> rfl

theorem chatAttempt_of_failure (result : GenResult)
    (hfail : ∀ t, result = GenResult.text t → hasText t = false) :
    ∃ caught, chatAttempt result = Except.error caught ∧
      (caught = Caught.other Rejection.nullish ↔ result = GenResult.rejects Rejection.nullish) ∧
      (caught = Caught.other Rejection.oddMessage ↔
        result = GenResult.rejects Rejection.oddMessage) := by
  cases result with
  | throws e => exact ⟨Caught.error e, rfl, by simp, by simp⟩
  | rejects r => exact ⟨Caught.other r, rfl, by simp, by simp⟩
  | noResponse => exact ⟨_, rfl, by simp, by simp⟩
  | text t =>
    have ht := hfail t rfl
    refine ⟨Caught.error { message := "AI returned empty reply" }, ?_, by simp, by simp⟩
    simp [chatAttempt, ht]

theorem chatAttempt_ok (result : GenResult) (reply : String)
    (h : chatAttempt result = Except.ok reply) :
    result = GenResult.text reply ∧ hasText reply = true := by
  cases result with
  | throws e => cases h
  | rejects r => cases h
  | noResponse => cases h
  | text t =>
    unfold chatAttempt at h
    simp only at h
    by_cases ht : hasText t = true
    · rw [if_pos ht] at h
      cases h
      exact ⟨rfl, ht⟩
    · rw [if_neg ht] at h
      cases h

theorem quotaCheck_cases (caught : Caught) :
    ((caught = Caught.other Rejection.nullish ∨ caught = Caught.other Rejection.oddMessage) ∧
      ∃ e, quotaCheck caught = Except.error e) ∨
    (caught ≠ Caught.other Rejection.nullish ∧ caught ≠ Caught.other Rejection.oddMessage ∧
      ∃ b, quotaCheck caught = Except.ok b) := by
  cases caught with
  | error e => exact Or.inr ⟨by simp, by simp, _, rfl⟩
  | other r =>
    cases r with
    | nullish => exact Or.inl ⟨Or.inl rfl, _, rfl⟩
    | noMessage => exact Or.inr ⟨by simp, by simp, _, rfl⟩
    | oddMessage => exact Or.inl ⟨Or.inr rfl, _, rfl⟩

theorem chatStage_failure (env : Env) (ai : Collaborators) (session : UserSession)
    (conversationContext userMessage userName : String) (chatId : Int) (w : World)
    (hfail : ∀ t, ai.generate (generateCalls w.events).length = GenResult.text t →
      hasText t = false) :
    (chatStage env ai session conversationContext userMessage userName chatId w).2 =
      { w with events := w.events ++ [Event.generate
        (chatPrompt ai.emailTransporter.isSome conversationContext userName userMessage)] } ∧
    ((ai.generate (generateCalls w.events).length = GenResult.rejects Rejection.nullish ∨
        ai.generate (generateCalls w.events).length = GenResult.rejects Rejection.oddMessage) →
      (∃ e, (chatStage env ai session conversationContext userMessage userName chatId w).1 =
        Except.error (Caught.error e)) ∧
      (outerCatch userName
        (chatStage env ai session conversationContext userMessage userName chatId w)).1 =
        Except.ok (unexpectedText userName)) ∧
    (ai.generate (generateCalls w.events).length ≠ GenResult.rejects Rejection.nullish →
      ai.generate (generateCalls w.events).length ≠ GenResult.rejects Rejection.oddMessage →
      (chatStage env ai session conversationContext userMessage userName chatId w).1 =
          Except.ok (quotaText userName) ∨
        (chatStage env ai session conversationContext userMessage userName chatId w).1 =
          Except.ok (genericText userName)) := by
  obtain ⟨caught, he, hn, ho⟩ := chatAttempt_of_failure _ hfail
  rw [chatStage_eq, he]
  simp only
  refine ⟨trivial, ?_, ?_⟩
  · intro hr
    have hc : caught = Caught.other Rejection.nullish ∨
        caught = Caught.other Rejection.oddMessage := by
      rcases hr with h | h
      · exact Or.inl (hn.2 h)
      · exact Or.inr (ho.2 h)
    rcases hc with h | h <;> subst h <;> exact ⟨⟨_, rfl⟩, rfl⟩
  · intro h1 h2
    rcases quotaCheck_cases caught with ⟨h | h, _⟩ | ⟨_, _, b, hb⟩
    · exact absurd (hn.1 h) h1
    · exact absurd (ho.1 h) h2
    · rw [hb]
      cases b
      · exact Or.inr rfl
      · exact Or.inl rfl

theorem chatStage_cases (env : Env) (ai : Collaborators) (session : UserSession)
    (conversationContext userMessage userName : String) (chatId : Int) (w : World) :
    (∃ reply,
      ai.generate (generateCalls w.events).length = GenResult.text reply ∧
      hasText reply = true ∧
      (chatStage env ai session conversationContext userMessage userName chatId w).1 =
        Except.ok reply ∧
      (chatStage env ai session conversationContext userMessage userName chatId w).2.userSessions
        = Sessions.set w.userSessions chatId
            (session.addMessage "assistant" reply (env.clock w.ticks)
              (env.clock (w.ticks + 1)))) ∨
    (((chatStage env ai session conversationContext userMessage userName chatId w).1 =
        Except.ok (quotaText userName) ∨
      (chatStage env ai session conversationContext userMessage userName chatId w).1 =
        Except.ok (genericText userName) ∨
      ∃ e, (chatStage env ai session conversationContext userMessage userName chatId w).1 =
        Except.error (Caught.error e)) ∧
      (chatStage env ai session conversationContext userMessage userName chatId w).2.userSessions
        = w.userSessions) := by
  rw [chatStage_eq]
  cases hc : chatAttempt (ai.generate (generateCalls w.events).length) with
  | ok reply =>
    obtain ⟨hg, ht⟩ := chatAttempt_ok _ _ hc
    exact Or.inl ⟨reply, hg, ht, rfl, rfl⟩
  | error caught =>
    refine Or.inr ⟨?_, rfl⟩
    simp only
    cases quotaCheck caught with
    | error e => exact Or.inr (Or.inr ⟨e, rfl⟩)
    | ok b =>
      cases b
      · exact Or.inr (Or.inl rfl)
      · exact Or.inl rfl

theorem actStage_sessions (env : Env) (ai : Collaborators) (intent : Intent)
    (session : UserSession) (conversationContext userMessage userName : String)
    (chatId : Int) (w : World) :
    (actStage env ai intent session conversationContext userMessage userName chatId
        w).2.userSessions = w.userSessions ∨
    ∃ reply k t1 t2,
      ai.generate k = GenResult.text reply ∧ hasText reply = true ∧
      (actStage env ai intent session conversationContext userMessage userName chatId w).1
        = Except.ok reply ∧
      (actStage env ai intent session conversationContext userMessage userName chatId
        w).2.userSessions =
        Sessions.set w.userSessions chatId (session.addMessage "assistant" reply t1 t2) := by
  have hes := emailStage_userSessions env ai intent userMessage chatId w
  unfold actStage
  rcases he : emailStage env ai intent userMessage chatId w with ⟨r, w1⟩
  rw [he] at hes
  simp only at hes
  cases r with
  | some reply => exact Or.inl hes
  | none =>
    simp only
    split
    · exact Or.inl hes
    · rcases chatStage_cases env ai session conversationContext userMessage userName chatId w1
        with ⟨reply, hg, ht, h1, h2⟩ | ⟨_, h2⟩
      · rw [hes] at h2
        exact Or.inr ⟨reply, _, _, _, hg, ht, h1, h2⟩
      · rw [hes] at h2
        exact Or.inl h2

theorem afterClassification_events (env : Env) (userMessage userName : String)
    (chatId : Int) (w : World) :
    (afterClassification env userMessage userName chatId w).events =
      w.events ++ [Event.generate (classificationPrompt env userMessage userName chatId w)] := by
  unfold afterClassification
  simp only [recordTurn_events]

theorem afterClassification_get (env : Env) (userMessage userName : String)
    (chatId : Int) (w : World) :
    Sessions.get (afterClassification env userMessage userName chatId w).userSessions chatId =
      some (recordTurn env userMessage userName chatId w).1 :=
  recordTurn_get env userMessage userName chatId w

theorem take_data_append (a u b : String) (n : Nat) (h : n ≤ a.data.length) :
    (a ++ u ++ b).data.take n = a.data.take n := by
  rw [String.data_append, String.data_append,
    List.take_append_of_le_length (by rw [List.length_append]; omega),
    List.take_append_of_le_length h]

theorem quotaText_ne_genericText (userName : String) :
    quotaText userName ≠ genericText userName := by
  apply ne_of_take_ne _ _ 1
  unfold quotaText genericText
  rw [take_data_append _ _ _ 1 (by decide), take_data_append _ _ _ 1 (by decide)]
  decide

theorem unexpectedText_ne_quotaText (userName : String) :
    unexpectedText userName ≠ quotaText userName := by
  apply ne_of_take_ne _ _ 1
  unfold unexpectedText quotaText
  rw [take_data_append _ _ _ 1 (by decide), take_data_append _ _ _ 1 (by decide)]
  decide

theorem unexpectedText_ne_genericText (userName : String) :
    unexpectedText userName ≠ genericText userName := by
  apply ne_of_take_ne _ _ 1
  unfold unexpectedText genericText
  rw [take_data_append _ _ _ 1 (by decide), take_data_append _ _ _ 1 (by decide)]
  decide

/-- C11, counterexample: the classification gets no response, so the
default intent leads to the chat stage, whose call the model rejects with
`null`; two calls are made, the reply is the unexpected-error text, which
is neither the quota nor the generic fallback text, and the session holds
the user turn only. -/
theorem chat_rejection_gets_unexpected_text :
    aiChatNull.generate 1 = GenResult.rejects Rejection.nullish ∧
    (generateCalls (getAIReply envLate aiChatNull "hello" "A" 1 worldEmpty).2.events).length
      = 2 ∧
    (getAIReply envLate aiChatNull "hello" "A" 1 worldEmpty).1 =
      Except.ok (unexpectedText "A") ∧
    unexpectedText "A" ≠ quotaText "A" ∧
    unexpectedText "A" ≠ genericText "A" ∧
    Sessions.get (getAIReply envLate aiChatNull "hello" "A" 1 worldEmpty).2.userSessions 1 =
      some (recordTurn envLate "hello" "A" 1 worldEmpty).1 :=
  ⟨rfl, rfl, rfl, unexpectedText_ne_quotaText "A", unexpectedText_ne_genericText "A", rfl⟩

/-- C11 (amended). Fallback texts are not recorded: (1) when the
classification call raises a quota error, `getAIReply` returns the busy
message, the trace grows by that one call only, and the session holds the
history before plus the user turn; (2) when the call of a chat stage fails,
the stage makes no further call and leaves the session map as it was, and
it returns the quota or the generic fallback text, unless the model
rejected with `null` or `undefined` or with a value whose truthy `message`
has no method `includes`: then the `catch` block raises a `TypeError` and
the outermost `catch` of `getAIReply` returns the unexpected-error text;
(3) the three fallback texts differ pairwise; (4) after every invocation
the session is the recorded one, or the recorded one plus an assistant turn
whose content is a text the model generated and that is the returned
reply. -/
theorem fallback_not_recorded (env : Env) (ai : Collaborators)
    (userMessage userName : String) (chatId : Int) (w : World) :
    (∀ e, ai.generate (generateCalls w.events).length = GenResult.throws e →
      isQuotaError e = true →
      getAIReply env ai userMessage userName chatId w =
        (Except.ok busyText, afterClassification env userMessage userName chatId w)) ∧
    ((afterClassification env userMessage userName chatId w).events =
        w.events ++ [Event.generate (classificationPrompt env userMessage userName chatId w)] ∧
      Sessions.get (afterClassification env userMessage userName chatId w).userSessions chatId
        = some (recordTurn env userMessage userName chatId w).1 ∧
      (recordTurn env userMessage userName chatId w).1.history =
        sliceLast 10 ((getUserSession env chatId userName w).1.history ++
          [{ role := "user", content := userMessage,
             timestamp := env.clock (getUserSession env chatId userName w).2.ticks }])) ∧
    (∀ (session : UserSession) (conversationContext : String) (w2 : World),
      (∀ t, ai.generate (generateCalls w2.events).length = GenResult.text t →
        hasText t = false) →
      (chatStage env ai session conversationContext userMessage userName chatId w2).2 =
        { w2 with events := w2.events ++ [Event.generate
          (chatPrompt ai.emailTransporter.isSome conversationContext userName
            userMessage)] } ∧
      ((ai.generate (generateCalls w2.events).length = GenResult.rejects Rejection.nullish ∨
          ai.generate (generateCalls w2.events).length =
            GenResult.rejects Rejection.oddMessage) →
        (∃ e, (chatStage env ai session conversationContext userMessage userName chatId
          w2).1 = Except.error (Caught.error e)) ∧
        (outerCatch userName
          (chatStage env ai session conversationContext userMessage userName chatId w2)).1 =
          Except.ok (unexpectedText userName)) ∧
      (ai.generate (generateCalls w2.events).length ≠ GenResult.rejects Rejection.nullish →
        ai.generate (generateCalls w2.events).length ≠
          GenResult.rejects Rejection.oddMessage →
        (chatStage env ai session conversationContext userMessage userName chatId w2).1 =
            Except.ok (quotaText userName) ∨
          (chatStage env ai session conversationContext userMessage userName chatId w2).1 =
            Except.ok (genericText userName))) ∧
    (quotaText userName ≠ genericText userName ∧
      unexpectedText userName ≠ quotaText userName ∧
      unexpectedText userName ≠ genericText userName) ∧
    (Sessions.get (getAIReply env ai userMessage userName chatId w).2.userSessions chatId =
        some (recordTurn env userMessage userName chatId w).1 ∨
      ∃ reply k t1 t2,
        ai.generate k = GenResult.text reply ∧
        (getAIReply env ai userMessage userName chatId w).1 = Except.ok reply ∧
        Sessions.get (getAIReply env ai userMessage userName chatId w).2.userSessions chatId =
          some ((recordTurn env userMessage userName chatId w).1.addMessage "assistant"
            reply t1 t2)) := by
  have hcont : ∀ intent,
      Sessions.get (continueWith env ai intent userMessage userName chatId
          w).2.userSessions chatId = some (recordTurn env userMessage userName chatId w).1 ∨
      ∃ reply k t1 t2,
        ai.generate k = GenResult.text reply ∧
        (continueWith env ai intent userMessage userName chatId w).1 = Except.ok reply ∧
        Sessions.get (continueWith env ai intent userMessage userName chatId
          w).2.userSessions chatId =
          some ((recordTurn env userMessage userName chatId w).1.addMessage "assistant"
            reply t1 t2) := by
    intro intent
    unfold continueWith
    rw [outerCatch_world]
    rcases actStage_sessions env ai intent (recordTurn env userMessage userName chatId w).1
        (conversationContextOf (recordTurn env userMessage userName chatId w).1)
        userMessage userName chatId (afterClassification env userMessage userName chatId w)
      with h | ⟨reply, k, t1, t2, hg, _, h1, h2⟩
    · rw [h]
      exact Or.inl (afterClassification_get env userMessage userName chatId w)
    · refine Or.inr ⟨reply, k, t1, t2, hg, outerCatch_ok userName _ reply h1, ?_⟩
      rw [h2, get_set_self]
  refine ⟨?_, ⟨afterClassification_events env userMessage userName chatId w,
    afterClassification_get env userMessage userName chatId w,
    recordTurn_history env userMessage userName chatId w⟩, ?_,
    ⟨quotaText_ne_genericText userName, unexpectedText_ne_quotaText userName,
      unexpectedText_ne_genericText userName⟩, ?_⟩
  · intro e hgen hquota
    rw [getAIReply_eq, hgen]
    simp only [parseIntent, quotaCheck, hquota]
  · intro session conversationContext w2 hfail
    exact chatStage_failure env ai session conversationContext userMessage userName chatId w2
      hfail
  · rw [getAIReply_eq]
    cases parseIntent ai (ai.generate (generateCalls w.events).length) with
    | ok intent => exact hcont intent
    | error caught =>
      simp only
      cases quotaCheck caught with
      | error e => exact Or.inl (afterClassification_get env userMessage userName chatId w)
      | ok b =>
        cases b
        · exact hcont defaultIntent
        · exact Or.inl (afterClassification_get env userMessage userName chatId w)

/-- C11, witness: a model over its quota. -/
theorem fallback_not_recorded_witness :
    isQuotaError { message := "[429 Too Many Requests] Resource has been exhausted" } = true ∧
    getAIReply envLate aiBusy "hello" "A" 1 worldEmpty =
      (Except.ok busyText, afterClassification envLate "hello" "A" 1 worldEmpty) :=
  ⟨by decide, (fallback_not_recorded envLate aiBusy "hello" "A" 1 worldEmpty).1
    { message := "[429 Too Many Requests] Resource has been exhausted" } rfl (by decide)⟩

/-- Where intent detection does default: when the classification answer is
missing, is empty, is rejected by `JSON.parse` with an error whose message
mentions neither `429` nor `quota`, parses to `null`, lacks a truthy
`intent` or `action`, or the call raises an error that is not taken for a
quota error, `getAIReply` goes on to the Act stage with the default intent
`{ intent: 'question', action: 'respond', confidence: 0.5 }`. -/
theorem default_intent_on_failure (env : Env) (ai : Collaborators)
    (userMessage userName : String) (chatId : Int) (w : World)
    (hbad :
      ai.generate (generateCalls w.events).length = GenResult.noResponse ∨
      (∃ t, ai.generate (generateCalls w.events).length = GenResult.text t ∧
        hasText t = false) ∨
      (∃ t e, ai.generate (generateCalls w.events).length = GenResult.text t ∧
        hasText t = true ∧ ai.parse (cleanJson t) = ParseResult.throws e ∧
        isQuotaError e = false) ∨
      (∃ t, ai.generate (generateCalls w.events).length = GenResult.text t ∧
        hasText t = true ∧ ai.parse (cleanJson t) = ParseResult.null) ∨
      (∃ t field, ai.generate (generateCalls w.events).length = GenResult.text t ∧
        hasText t = true ∧ ai.parse (cleanJson t) = ParseResult.object field ∧
        ((field "intent").truthy && (field "action").truthy) = false) ∨
      (∃ e, ai.generate (generateCalls w.events).length = GenResult.throws e ∧
        isQuotaError e = false)) :
    getAIReply env ai userMessage userName chatId w =
      continueWith env ai defaultIntent userMessage userName chatId w ∧
    defaultIntent = { intent := JsVal.str "question", action := JsVal.str "respond",
                      confidence := JsVal.other true "0.5" } := by
  refine ⟨?_, rfl⟩
  have hparse : ∃ e, parseIntent ai (ai.generate (generateCalls w.events).length) =
      Except.error (Caught.error e) ∧ isQuotaError e = false := by
    rcases hbad with h | ⟨t, h, ht⟩ | ⟨t, e, h, ht, hp, he⟩ | ⟨t, h, ht, hp⟩ |
      ⟨t, field, h, ht, hp, hf⟩ | ⟨e, h, he⟩
    · exact ⟨_, by rw [h]; rfl, by decide⟩
    · exact ⟨{ message := "Intent detection failed: empty text" },
        by rw [h]; simp [parseIntent, ht], by decide⟩
    · exact ⟨e, by rw [h]; simp [parseIntent, ht, hp], he⟩
    · exact ⟨nullAccessError, by rw [h]; simp [parseIntent, ht, hp], by decide⟩
    · refine ⟨{ message := "Intent detection failed: missing required fields" }, ?_, by decide⟩
      rw [h]
      simp only [parseIntent, ht, hp, if_true]
      rw [hf]
      simp
    · exact ⟨e, by rw [h]; rfl, he⟩
  obtain ⟨e, hp, he⟩ := hparse
  rw [getAIReply_eq, hp]
  simp only [quotaCheck, he]

/-- C12, the code at the failing input: the classification answer
`quota exceeded` cannot be parsed as JSON, the message of the parse error
quotes it, and `getAIReply` returns the busy message instead of going on
with the default intent (which would have produced the reply "pong"). -/
theorem parse_error_quoting_quota_is_busy :
    aiQuotaText.generate 0 = GenResult.text "quota exceeded" ∧
    hasText "quota exceeded" = true ∧
    (∃ e, aiQuotaText.parse (cleanJson "quota exceeded") = ParseResult.throws e) ∧
    (getAIReply envLate aiQuotaText "hello" "A" 1 worldEmpty).1 = Except.ok busyText ∧
    (generateCalls (getAIReply envLate aiQuotaText "hello" "A" 1 worldEmpty).2.events).length
      = 1 ∧
    (continueWith envLate aiQuotaText defaultIntent "hello" "A" 1 worldEmpty).1 =
      Except.ok "pong" :=
  ⟨rfl, by decide, ⟨_, rfl⟩, rfl, rfl, rfl⟩

theorem parseIntent_object (ai : Collaborators) (k : Nat) (t : String)
    (field : String → JsVal)
    (hgen : ai.generate k = GenResult.text t) (htext : hasText t = true)
    (hparse : ai.parse (cleanJson t) = ParseResult.object field)
    (hintent : (field "intent").truthy = true) (haction : (field "action").truthy = true) :
    parseIntent ai (ai.generate k) =
      Except.ok { intent := field "intent", action := field "action",
                  confidence := field "confidence" } := by
  rw [hgen]
  simp [parseIntent, htext, hparse, hintent, haction]

theorem extractEmailInfo_object (ai : Collaborators) (userMessage : String) (w : World)
    (t : String) (field : String → JsVal)
    (hgen : ai.generate (generateCalls w.events).length = GenResult.text t)
    (htext : hasText t = true)
    (hparse : ai.parse (cleanJson t) = ParseResult.object field)
    (hsubject : (field "subject").truthy = true) (hbody : (field "body").truthy = true) :
    (extractEmailInfo ai userMessage w).1 =
      Except.ok (some { to_ := extractEmail userMessage, subject := field "subject",
                        body := field "body",
                        needsMoreInfo := (extractEmail userMessage).isNone }) := by
  unfold extractEmailInfo generateContent
  simp [hgen, htext, hparse, hsubject, hbody]

theorem emailRegexTest_ne_empty (address : String) (h : emailRegexTest address = true) :
    address ≠ "" := by
  intro he
  rw [he] at h
  revert h
  decide

theorem emailStage_send (env : Env) (ai : Collaborators) (intent : Intent)
    (userMessage : String) (chatId : Int) (w : World) (sendMail : Nat → MailResult)
    (address t : String) (field : String → JsVal)
    (hintent : intent.intent = JsVal.str "send_email")
    (hcfg : ai.emailTransporter = some sendMail)
    (haddr : extractEmail userMessage = some address)
    (hgen : ai.generate (generateCalls w.events).length = GenResult.text t)
    (htext : hasText t = true)
    (hparse : ai.parse (cleanJson t) = ParseResult.object field)
    (hsubject : (field "subject").truthy = true) (hbody : (field "body").truthy = true) :
    emailStage env ai intent userMessage chatId w =
      (some (match sendMail (mailCalls w.events).length with
          | MailResult.sent messageId =>
            if messageId.truthy then
              confirmationText address (field "subject").shown (field "body").shown
            else emailFailedText
          | MailResult.failed _ => sendErrorText
          | MailResult.rejects _ _ => sendErrorText),
       { (sendMessage env chatId "📧 جاري الإرسال..." defaultRetries
            { w with events := w.events ++
              [Event.generate (extractionPrompt userMessage (some address))] }).2 with
         events := (sendMessage env chatId "📧 جاري الإرسال..." defaultRetries
            { w with events := w.events ++
              [Event.generate (extractionPrompt userMessage (some address))] }).2.events ++
           [Event.mail address (field "subject").shown (field "body").shown] }) := by
  have hvalid := emailRegexTest_of_extractEmail userMessage address haddr
  have hne := emailRegexTest_ne_empty address hvalid
  have hinfo := extractEmailInfo_object ai userMessage w t field hgen htext hparse hsubject hbody
  have hworld := extractEmailInfo_world ai userMessage w
  rw [haddr] at hinfo hworld
  unfold emailStage
  rw [if_pos ⟨hintent, by rw [hcfg]; rfl⟩, haddr]
  simp only
  rcases hx : extractEmailInfo ai userMessage w with ⟨info, w1⟩
  rw [hx] at hinfo hworld
  simp only at hinfo hworld
  subst hinfo
  subst hworld
  simp only [orElse_some_empty, hsubject, hbody, if_true, if_neg hne]
  rw [sendEmail_of_valid ai sendMail address _ _ _ hcfg hvalid, sendMessage_mailCalls]
  have hm : mailCalls (w.events ++
      [Event.generate (extractionPrompt userMessage (some address))]) = mailCalls w.events := by
    rw [mailCalls_append]
    simp [mailCalls]
  simp only [hm]
  cases sendMail (mailCalls w.events).length with
  | sent messageId =>
    simp only [mailOutcome]
    split <;> rfl
  | failed e => rfl
  | rejects r e => cases r <;> rfl

theorem continueWith_email (env : Env) (ai : Collaborators) (intent : Intent)
    (userMessage userName : String) (chatId : Int) (w : World) (reply : String) (w1 : World)
    (h : emailStage env ai intent userMessage chatId
      (afterClassification env userMessage userName chatId w) = (some reply, w1)) :
    continueWith env ai intent userMessage userName chatId w = (Except.ok reply, w1) := by
  unfold continueWith actStage
  rw [h]
  rfl

/-- C13. When the classified intent is `send_email`, the email
collaborator is configured and `extractEmail` finds no address in the
text, `getAIReply` returns the prompt asking for an address; the only call
to the AI model is the classification (no extraction call) and no call to
`sendMail` is made. -/
theorem email_intent_without_address (env : Env) (ai : Collaborators)
    (userMessage userName : String) (chatId : Int) (w : World)
    (t : String) (field : String → JsVal)
    (hgen : ai.generate (generateCalls w.events).length = GenResult.text t)
    (htext : hasText t = true)
    (hparse : ai.parse (cleanJson t) = ParseResult.object field)
    (hintent : field "intent" = JsVal.str "send_email")
    (haction : (field "action").truthy = true)
    (hcfg : ai.emailTransporter.isSome = true)
    (hnone : extractEmail userMessage = none) :
    getAIReply env ai userMessage userName chatId w =
      (Except.ok needAddressText, afterClassification env userMessage userName chatId w) ∧
    (getAIReply env ai userMessage userName chatId w).2.events =
      w.events ++ [Event.generate (classificationPrompt env userMessage userName chatId w)] ∧
    generateCalls (getAIReply env ai userMessage userName chatId w).2.events =
      generateCalls w.events ++ [classificationPrompt env userMessage userName chatId w] ∧
    mailCalls (getAIReply env ai userMessage userName chatId w).2.events =
      mailCalls w.events := by
  have hres : getAIReply env ai userMessage userName chatId w =
      (Except.ok needAddressText, afterClassification env userMessage userName chatId w) := by
    rw [getAIReply_eq, parseIntent_object ai _ t field hgen htext hparse
      (by rw [hintent]; decide) haction]
    simp only
    apply continueWith_email
    unfold emailStage
    rw [if_pos ⟨hintent, hcfg⟩, hnone]
  refine ⟨hres, ?_, ?_, ?_⟩
  · rw [hres]
    exact afterClassification_events env userMessage userName chatId w
  · rw [hres]
    simp only
    rw [afterClassification_events, generateCalls_append]
    rfl
  · rw [hres]
    simp only
    rw [afterClassification_events, mailCalls_append]
    simp [mailCalls]

/-- C13, witness: the text "hello" holds no address. -/
theorem email_intent_without_address_witness :
    extractEmail "hello" = none ∧
    (getAIReply envLate (aiEmail (MailResult.sent (JsVal.str "<1@mail>"))) "hello" "A" 1
      worldEmpty).2.events =
      worldEmpty.events ++ [Event.generate (classificationPrompt envLate "hello" "A" 1
        worldEmpty)] :=
  ⟨by decide, (email_intent_without_address envLate
    (aiEmail (MailResult.sent (JsVal.str "<1@mail>"))) "hello" "A" 1 worldEmpty "INTENT"
    (fieldsOf (JsVal.str "send_email") (JsVal.str "execute") JsVal.undefined JsVal.undefined)
    rfl (by decide) rfl rfl (by decide) rfl (by decide)).2.1⟩

theorem confirmationText_contains (to_ subject body : String) :
    (∃ before after, confirmationText to_ subject body = before ++ to_ ++ after) ∧
    (∃ before after, confirmationText to_ subject body = before ++ subject ++ after) ∧
    (∃ before after, confirmationText to_ subject body = before ++ body ++ after) := by
  unfold confirmationText
  refine ⟨⟨"✅ تم! الإيميل وصل!\n\n📬 إلى: ",
      "\n📝 الموضوع: " ++ subject ++ "\n✉️ المحتوى:\n" ++ body ++
        "\n\n💡 يمكنك إرسال إيميل آخر!", ?_⟩,
    ⟨"✅ تم! الإيميل وصل!\n\n📬 إلى: " ++ to_ ++ "\n📝 الموضوع: ",
      "\n✉️ المحتوى:\n" ++ body ++ "\n\n💡 يمكنك إرسال إيميل آخر!", ?_⟩,
    ⟨"✅ تم! الإيميل وصل!\n\n📬 إلى: " ++ to_ ++ "\n📝 الموضوع: " ++ subject ++
      "\n✉️ المحتوى:\n", "\n\n💡 يمكنك إرسال إيميل آخر!", rfl⟩⟩
  · simp only [String.append_assoc]
  · simp only [String.append_assoc]

theorem getAIReply_email (env : Env) (ai : Collaborators)
    (userMessage userName : String) (chatId : Int) (w : World)
    (sendMail : Nat → MailResult) (address t1 t2 : String)
    (field1 field2 : String → JsVal)
    (hgen1 : ai.generate (generateCalls w.events).length = GenResult.text t1)
    (htext1 : hasText t1 = true)
    (hparse1 : ai.parse (cleanJson t1) = ParseResult.object field1)
    (hintent : field1 "intent" = JsVal.str "send_email")
    (haction : (field1 "action").truthy = true)
    (hcfg : ai.emailTransporter = some sendMail)
    (haddr : extractEmail userMessage = some address)
    (hgen2 : ai.generate ((generateCalls w.events).length + 1) = GenResult.text t2)
    (htext2 : hasText t2 = true)
    (hparse2 : ai.parse (cleanJson t2) = ParseResult.object field2)
    (hsubject : (field2 "subject").truthy = true) (hbody : (field2 "body").truthy = true) :
    (getAIReply env ai userMessage userName chatId w).1 =
      Except.ok (match sendMail (mailCalls w.events).length with
        | MailResult.sent messageId =>
          if messageId.truthy then
            confirmationText address (field2 "subject").shown (field2 "body").shown
          else emailFailedText
        | MailResult.failed _ => sendErrorText
        | MailResult.rejects _ _ => sendErrorText) ∧
    generateCalls (getAIReply env ai userMessage userName chatId w).2.events =
      generateCalls w.events ++ [classificationPrompt env userMessage userName chatId w,
        extractionPrompt userMessage (some address)] ∧
    mailCalls (getAIReply env ai userMessage userName chatId w).2.events =
      mailCalls w.events ++ [(address, (field2 "subject").shown, (field2 "body").shown)] := by
  have hk : (generateCalls (afterClassification env userMessage userName chatId w).events).length
      = (generateCalls w.events).length + 1 := by
    rw [afterClassification_events, generateCalls_append]
    simp [generateCalls]
  have hm : mailCalls (afterClassification env userMessage userName chatId w).events =
      mailCalls w.events := by
    rw [afterClassification_events, mailCalls_append]
    simp [mailCalls]
  have hstage := emailStage_send env ai
    { intent := field1 "intent", action := field1 "action", confidence := field1 "confidence" }
    userMessage chatId (afterClassification env userMessage userName chatId w) sendMail
    address t2 field2 hintent hcfg haddr (by rw [hk]; exact hgen2) htext2 hparse2 hsubject hbody
  rw [hm] at hstage
  have hres := continueWith_email env ai _ userMessage userName chatId w _ _ hstage
  rw [getAIReply_eq, parseIntent_object ai _ t1 field1 hgen1 htext1 hparse1
    (by rw [hintent]; decide) haction]
  simp only
  rw [hres]
  refine ⟨rfl, ?_, ?_⟩
  · simp only
    rw [generateCalls_append, sendMessage_generateCalls]
    simp only
    rw [generateCalls_append, afterClassification_events, generateCalls_append]
    simp [generateCalls]
  · simp only
    rw [mailCalls_append, sendMessage_mailCalls]
    simp only
    rw [mailCalls_append, hm]
    simp [mailCalls]

/-- C14, counterexample: `sendMail` succeeds and returns the empty message
id; the email is sent once, and the reply is the failure text, not the
confirmation. -/
theorem empty_message_id_reports_failure :
    (getAIReply envLate (aiEmail (MailResult.sent (JsVal.str ""))) thanksText "A" 1
      worldEmpty).1 = Except.ok emailFailedText ∧
    mailCalls (getAIReply envLate (aiEmail (MailResult.sent (JsVal.str ""))) thanksText "A" 1
      worldEmpty).2.events = [("boss@company.com", "Thanks", "Thank you!")] :=
  ⟨rfl, by decide⟩

/-- C14 (amended). When the text contains an address, the intent is
`send_email`, the email collaborator is configured, the extraction answer
has a truthy subject and body, and `sendMail` succeeds with a non-empty
(truthy) message id, `getAIReply` calls the AI model once more after the
classification (the extraction), calls `sendMail` exactly once, with the
address `extractEmail` returns, and returns the confirmation, which
contains that address, the subject and the body. -/
theorem email_sent_and_confirmed (env : Env) (ai : Collaborators)
    (userMessage userName : String) (chatId : Int) (w : World)
    (sendMail : Nat → MailResult) (address t1 t2 : String)
    (field1 field2 : String → JsVal) (messageId : JsVal)
    (hgen1 : ai.generate (generateCalls w.events).length = GenResult.text t1)
    (htext1 : hasText t1 = true)
    (hparse1 : ai.parse (cleanJson t1) = ParseResult.object field1)
    (hintent : field1 "intent" = JsVal.str "send_email")
    (haction : (field1 "action").truthy = true)
    (hcfg : ai.emailTransporter = some sendMail)
    (haddr : extractEmail userMessage = some address)
    (hgen2 : ai.generate ((generateCalls w.events).length + 1) = GenResult.text t2)
    (htext2 : hasText t2 = true)
    (hparse2 : ai.parse (cleanJson t2) = ParseResult.object field2)
    (hsubject : (field2 "subject").truthy = true) (hbody : (field2 "body").truthy = true)
    (hmail : sendMail (mailCalls w.events).length = MailResult.sent messageId)
    (hid : messageId.truthy = true) :
    (getAIReply env ai userMessage userName chatId w).1 =
      Except.ok (confirmationText address (field2 "subject").shown (field2 "body").shown) ∧
    generateCalls (getAIReply env ai userMessage userName chatId w).2.events =
      generateCalls w.events ++ [classificationPrompt env userMessage userName chatId w,
        extractionPrompt userMessage (some address)] ∧
    mailCalls (getAIReply env ai userMessage userName chatId w).2.events =
      mailCalls w.events ++ [(address, (field2 "subject").shown, (field2 "body").shown)] ∧
    (∃ before after,
      confirmationText address (field2 "subject").shown (field2 "body").shown =
        before ++ address ++ after) ∧
    (∃ before after,
      confirmationText address (field2 "subject").shown (field2 "body").shown =
        before ++ (field2 "subject").shown ++ after) ∧
    (∃ before after,
      confirmationText address (field2 "subject").shown (field2 "body").shown =
        before ++ (field2 "body").shown ++ after) := by
  obtain ⟨h1, h2, h3⟩ := getAIReply_email env ai userMessage userName chatId w sendMail
    address t1 t2 field1 field2 hgen1 htext1 hparse1 hintent haction hcfg haddr hgen2 htext2
    hparse2 hsubject hbody
  rw [hmail] at h1
  simp only [hid, if_true] at h1
  obtain ⟨c1, c2, c3⟩ := confirmationText_contains address (field2 "subject").shown
    (field2 "body").shown
  exact ⟨h1, h2, h3, c1, c2, c3⟩

/-- C14, witness: the text of the scenario; the recipient is
`boss@company.com` and the confirmation names it. -/
theorem email_sent_and_confirmed_witness :
    extractEmail thanksText = some "boss@company.com" ∧
    (getAIReply envLate (aiEmail (MailResult.sent (JsVal.str "<1@mail>"))) thanksText "A" 1
      worldEmpty).1 = Except.ok (confirmationText "boss@company.com" "Thanks" "Thank you!") :=
  ⟨by decide, (email_sent_and_confirmed envLate
    (aiEmail (MailResult.sent (JsVal.str "<1@mail>"))) thanksText "A" 1 worldEmpty
    (fun _ => MailResult.sent (JsVal.str "<1@mail>")) "boss@company.com" "INTENT" "EXTRACTION"
    (fieldsOf (JsVal.str "send_email") (JsVal.str "execute") JsVal.undefined JsVal.undefined)
    (fieldsOf JsVal.undefined JsVal.undefined (JsVal.str "Thanks") (JsVal.str "Thank you!"))
    (JsVal.str "<1@mail>")
    rfl (by decide) rfl rfl (by decide) rfl (by decide) rfl (by decide) rfl (by decide)
    (by decide) rfl (by decide)).1⟩

theorem mailFailureMessage_cases (e : MailError) :
    (e.code = some "EAUTH" ∧
      mailFailureMessage e = "⚠️ Gmail authentication failed. Check your App Password.") ∨
    (e.code ≠ some "EAUTH" ∧ e.code = some "ETIMEDOUT" ∧
      mailFailureMessage e = "⚠️ Email timeout. Check your internet connection.") ∨
    (e.code ≠ some "EAUTH" ∧ e.code ≠ some "ETIMEDOUT" ∧ e.code = some "ECONNECTION" ∧
      mailFailureMessage e = "⚠️ Cannot connect to Gmail servers.") ∨
    (e.code ≠ some "EAUTH" ∧ e.code ≠ some "ETIMEDOUT" ∧ e.code ≠ some "ECONNECTION" ∧
      mailFailureMessage e = "⚠️ Email failed: " ++ e.message) := by
  unfold mailFailureMessage
  by_cases h1 : e.code = some "EAUTH"
  · exact Or.inl ⟨h1, by rw [if_pos h1]⟩
  · by_cases h2 : e.code = some "ETIMEDOUT"
    · exact Or.inr (Or.inl ⟨h1, h2, by rw [if_neg h1, if_pos h2]⟩)
    · by_cases h3 : e.code = some "ECONNECTION"
      · exact Or.inr (Or.inr (Or.inl ⟨h1, h2, h3, by rw [if_neg h1, if_neg h2, if_pos h3]⟩))
      · exact Or.inr (Or.inr (Or.inr ⟨h1, h2, h3, by rw [if_neg h1, if_neg h2, if_neg h3]⟩))

theorem emailFailed_ne (message constant : String)
    (h : constant.data.take 10 ≠ ['⚠', '️', ' ', 'E', 'm', 'a', 'i', 'l', ' ', 'f']) :
    "⚠️ Email failed: " ++ message ≠ constant := by
  apply ne_of_take_ne _ _ 10
  rw [String.data_append, List.take_append_of_le_length (by decide)]
  intro hc
  exact h (by rw [← hc]; decide)

theorem mailFailureMessage_injective (e1 e2 : MailError)
    (h : mailFailureMessage e1 = mailFailureMessage e2) :
    (e1.code = some "EAUTH" ↔ e2.code = some "EAUTH") ∧
    (e1.code = some "ETIMEDOUT" ↔ e2.code = some "ETIMEDOUT") ∧
    (e1.code = some "ECONNECTION" ↔ e2.code = some "ECONNECTION") := by
  have g1 := emailFailed_ne e1.message
    "⚠️ Gmail authentication failed. Check your App Password." (by decide)
  have g2 := emailFailed_ne e1.message
    "⚠️ Email timeout. Check your internet connection." (by decide)
  have g3 := emailFailed_ne e1.message "⚠️ Cannot connect to Gmail servers." (by decide)
  have k1 := emailFailed_ne e2.message
    "⚠️ Gmail authentication failed. Check your App Password." (by decide)
  have k2 := emailFailed_ne e2.message
    "⚠️ Email timeout. Check your internet connection." (by decide)
  have k3 := emailFailed_ne e2.message "⚠️ Cannot connect to Gmail servers." (by decide)
  have c12 : ("⚠️ Gmail authentication failed. Check your App Password." : String) ≠
      "⚠️ Email timeout. Check your internet connection." := by decide
  have c13 : ("⚠️ Gmail authentication failed. Check your App Password." : String) ≠
      "⚠️ Cannot connect to Gmail servers." := by decide
  have c23 : ("⚠️ Email timeout. Check your internet connection." : String) ≠
      "⚠️ Cannot connect to Gmail servers." := by decide
  rcases mailFailureMessage_cases e1 with ⟨a1, m1⟩ | ⟨a1, a2, m1⟩ | ⟨a1, a2, a3, m1⟩ |
      ⟨a1, a2, a3, m1⟩ <;>
    rcases mailFailureMessage_cases e2 with ⟨b1, m2⟩ | ⟨b1, b2, m2⟩ | ⟨b1, b2, b3, m2⟩ |
      ⟨b1, b2, b3, m2⟩ <;>
    rw [m1, m2] at h <;>
    first
      | exact absurd h c12 | exact absurd h.symm c12
      | exact absurd h c13 | exact absurd h.symm c13
      | exact absurd h c23 | exact absurd h.symm c23
      | exact absurd h g1 | exact absurd h g2 | exact absurd h g3
      | exact absurd h.symm k1 | exact absurd h.symm k2 | exact absurd h.symm k3
      | simp_all

/-- C15, counterexample: an authentication failure and a timeout of
`sendMail` give the same reply. -/
theorem email_failures_share_one_reply :
    (getAIReply envLate (aiEmail (MailResult.failed { code := some "EAUTH", message := "a" }))
      thanksText "A" 1 worldEmpty).1 = Except.ok sendErrorText ∧
    (getAIReply envLate
      (aiEmail (MailResult.failed { code := some "ETIMEDOUT", message := "b" }))
      thanksText "A" 1 worldEmpty).1 = Except.ok sendErrorText :=
  ⟨rfl, rfl⟩

/-- C15 (amended). When `sendMail` fails during the Act stage, `sendEmail`
raises an error whose message tells the four categories apart (equal
messages mean the same category among `EAUTH`, `ETIMEDOUT`, `ECONNECTION`
and any other failure), while the reply `getAIReply` returns to the user
is the same fixed send-failure text in every category. -/
theorem email_failure_reply (env : Env) (ai : Collaborators)
    (userMessage userName : String) (chatId : Int) (w : World)
    (sendMail : Nat → MailResult) (address t1 t2 : String)
    (field1 field2 : String → JsVal) (e : MailError)
    (hgen1 : ai.generate (generateCalls w.events).length = GenResult.text t1)
    (htext1 : hasText t1 = true)
    (hparse1 : ai.parse (cleanJson t1) = ParseResult.object field1)
    (hintent : field1 "intent" = JsVal.str "send_email")
    (haction : (field1 "action").truthy = true)
    (hcfg : ai.emailTransporter = some sendMail)
    (haddr : extractEmail userMessage = some address)
    (hgen2 : ai.generate ((generateCalls w.events).length + 1) = GenResult.text t2)
    (htext2 : hasText t2 = true)
    (hparse2 : ai.parse (cleanJson t2) = ParseResult.object field2)
    (hsubject : (field2 "subject").truthy = true) (hbody : (field2 "body").truthy = true)
    (hmail : sendMail (mailCalls w.events).length = MailResult.failed e) :
    (getAIReply env ai userMessage userName chatId w).1 = Except.ok sendErrorText ∧
    (∀ (subject body : JsVal) (w1 : World), mailCalls w1.events = mailCalls w.events →
      (sendEmail ai address subject body w1).1 =
        Except.error { message := mailFailureMessage e }) ∧
    (∀ e2 : MailError, mailFailureMessage e = mailFailureMessage e2 →
      (e.code = some "EAUTH" ↔ e2.code = some "EAUTH") ∧
      (e.code = some "ETIMEDOUT" ↔ e2.code = some "ETIMEDOUT") ∧
      (e.code = some "ECONNECTION" ↔ e2.code = some "ECONNECTION")) := by
  obtain ⟨h1, _, _⟩ := getAIReply_email env ai userMessage userName chatId w sendMail
    address t1 t2 field1 field2 hgen1 htext1 hparse1 hintent haction hcfg haddr hgen2 htext2
    hparse2 hsubject hbody
  rw [hmail] at h1
  refine ⟨h1, ?_, fun e2 h => mailFailureMessage_injective e e2 h⟩
  intro subject body w1 hw1
  rw [sendEmail_of_valid ai sendMail address subject body w1 hcfg
    (emailRegexTest_of_extractEmail userMessage address haddr), hw1, hmail]
  rfl

/-- C15, witness: the scenario with a `sendMail` that fails to
authenticate. -/
theorem email_failure_reply_witness :
    extractEmail thanksText = some "boss@company.com" ∧
    (getAIReply envLate (aiEmail (MailResult.failed { code := some "EAUTH", message := "a" }))
      thanksText "A" 1 worldEmpty).1 = Except.ok sendErrorText :=
  ⟨by decide, (email_failure_reply envLate
    (aiEmail (MailResult.failed { code := some "EAUTH", message := "a" })) thanksText "A" 1
    worldEmpty (fun _ => MailResult.failed { code := some "EAUTH", message := "a" })
    "boss@company.com" "INTENT" "EXTRACTION"
    (fieldsOf (JsVal.str "send_email") (JsVal.str "execute") JsVal.undefined JsVal.undefined)
    (fieldsOf JsVal.undefined JsVal.undefined (JsVal.str "Thanks") (JsVal.str "Thank you!"))
    { code := some "EAUTH", message := "a" }
    rfl (by decide) rfl rfl (by decide) rfl (by decide) rfl (by decide) rfl (by decide)
    (by decide) rfl).1⟩

theorem ne_empty_of_hasText (t : String) (h : hasText t = true) : t ≠ "" := by
  intro he
  rw [he] at h
  revert h
  decide

theorem confirmationText_ne_empty (to_ subject body : String) :
    confirmationText to_ subject body ≠ "" := by
  apply ne_of_take_ne _ _ 1
  unfold confirmationText
  simp only [String.data_append, List.append_assoc]
  rw [List.take_append_of_le_length (by decide)]
  decide

theorem quotaText_ne_empty (userName : String) : quotaText userName ≠ "" := by
  apply ne_of_take_ne _ _ 1
  unfold quotaText
  rw [take_data_append _ _ _ 1 (by decide)]
  decide

theorem genericText_ne_empty (userName : String) : genericText userName ≠ "" := by
  apply ne_of_take_ne _ _ 1
  unfold genericText
  rw [take_data_append _ _ _ 1 (by decide)]
  decide

theorem unexpectedText_ne_empty (userName : String) : unexpectedText userName ≠ "" := by
  apply ne_of_take_ne _ _ 1
  unfold unexpectedText
  rw [take_data_append _ _ _ 1 (by decide)]
  decide

theorem emailStage_reply_cases (env : Env) (ai : Collaborators) (intent : Intent)
    (userMessage : String) (chatId : Int) (w : World) (reply : String)
    (h : (emailStage env ai intent userMessage chatId w).1 = some reply) :
    reply = needAddressText ∨ reply = extractionErrorText ∨ reply = noEmailInfoText ∨
    reply = emailFailedText ∨ reply = sendErrorText ∨
    ∃ to_ subject body, reply = confirmationText to_ subject body := by
  unfold emailStage at h
  split at h
  · split at h
    · simp only [Option.some.injEq] at h
      exact Or.inl h.symm
    · rcases hx : extractEmailInfo ai userMessage w with ⟨info, w1⟩
      rw [hx] at h
      cases info with
      | error e =>
        simp only [Option.some.injEq] at h
        exact Or.inr (Or.inl h.symm)
      | ok found =>
        cases found with
        | none =>
          simp only [Option.some.injEq] at h
          exact Or.inr (Or.inr (Or.inl h.symm))
        | some emailInfo =>
          simp only at h
          split at h
          · cases h
          · split at h
            · split at h
              · simp only [Option.some.injEq] at h
                exact Or.inr (Or.inr (Or.inr (Or.inr (Or.inr ⟨_, _, _, h.symm⟩))))
              · simp only [Option.some.injEq] at h
                exact Or.inr (Or.inr (Or.inr (Or.inl h.symm)))
            · simp only [Option.some.injEq] at h
              exact Or.inr (Or.inr (Or.inr (Or.inr (Or.inl h.symm))))
  · cases h

theorem actStage_reply_cases (env : Env) (ai : Collaborators) (intent : Intent)
    (session : UserSession) (conversationContext userMessage userName : String)
    (chatId : Int) (w : World) :
    (∃ reply,
      (actStage env ai intent session conversationContext userMessage userName chatId w).1 =
        Except.ok reply ∧
      (reply ∈ [needAddressText, extractionErrorText, noEmailInfoText, emailFailedText,
          sendErrorText, helpText, quotaText userName, genericText userName,
          unexpectedText userName] ∨
        (∃ to_ subject body, reply = confirmationText to_ subject body) ∨
        (∃ k, ai.generate k = GenResult.text reply ∧ hasText reply = true))) ∨
    (∃ e,
      (actStage env ai intent session conversationContext userMessage userName chatId w).1 =
        Except.error (Caught.error e)) := by
  have he := emailStage_reply_cases env ai intent userMessage chatId w
  unfold actStage
  rcases hx : emailStage env ai intent userMessage chatId w with ⟨r, w1⟩
  rw [hx] at he
  cases r with
  | some reply =>
    refine Or.inl ⟨reply, rfl, ?_⟩
    rcases he reply rfl with h | h | h | h | h | ⟨a, s, b, h⟩
    · exact Or.inl (by rw [h]; simp)
    · exact Or.inl (by rw [h]; simp)
    · exact Or.inl (by rw [h]; simp)
    · exact Or.inl (by rw [h]; simp)
    · exact Or.inl (by rw [h]; simp)
    · exact Or.inr (Or.inl ⟨a, s, b, h⟩)
  | none =>
    simp only
    split
    · exact Or.inl ⟨helpText, rfl, Or.inl (by simp)⟩
    · rcases chatStage_cases env ai session conversationContext userMessage userName chatId w1
        with ⟨reply, hg, ht, h1, _⟩ | ⟨h1 | h1 | ⟨e, h1⟩, _⟩
      · exact Or.inl ⟨reply, h1, Or.inr (Or.inr ⟨_, hg, ht⟩)⟩
      · exact Or.inl ⟨_, h1, Or.inl (by simp)⟩
      · exact Or.inl ⟨_, h1, Or.inl (by simp)⟩
      · exact Or.inr ⟨e, h1⟩

theorem replyAttempt_cases (env : Env) (ai : Collaborators)
    (userMessage userName : String) (chatId : Int) (w : World) :
    (∃ reply,
      (replyAttempt env ai userMessage userName chatId w).1 = Except.ok reply ∧
      (reply ∈ [busyText, needAddressText, extractionErrorText, noEmailInfoText,
          emailFailedText, sendErrorText, helpText, quotaText userName, genericText userName,
          unexpectedText userName] ∨
        (∃ to_ subject body, reply = confirmationText to_ subject body) ∨
        (∃ k, ai.generate k = GenResult.text reply ∧ hasText reply = true))) ∨
    (∃ e, (replyAttempt env ai userMessage userName chatId w).1 =
      Except.error (Caught.error e)) := by
  have hact : ∀ intent,
      (∃ reply,
        (actStage env ai intent (recordTurn env userMessage userName chatId w).1
          (conversationContextOf (recordTurn env userMessage userName chatId w).1)
          userMessage userName chatId
          (afterClassification env userMessage userName chatId w)).1 = Except.ok reply ∧
        (reply ∈ [busyText, needAddressText, extractionErrorText, noEmailInfoText,
            emailFailedText, sendErrorText, helpText, quotaText userName,
            genericText userName, unexpectedText userName] ∨
          (∃ to_ subject body, reply = confirmationText to_ subject body) ∨
          (∃ k, ai.generate k = GenResult.text reply ∧ hasText reply = true))) ∨
      (∃ e, (actStage env ai intent (recordTurn env userMessage userName chatId w).1
          (conversationContextOf (recordTurn env userMessage userName chatId w).1)
          userMessage userName chatId
          (afterClassification env userMessage userName chatId w)).1 =
        Except.error (Caught.error e)) := by
    intro intent
    rcases actStage_reply_cases env ai intent (recordTurn env userMessage userName chatId w).1
        (conversationContextOf (recordTurn env userMessage userName chatId w).1)
        userMessage userName chatId (afterClassification env userMessage userName chatId w)
      with ⟨reply, h1, h | h | h⟩ | h
    · exact Or.inl ⟨reply, h1, Or.inl (List.mem_cons_of_mem _ h)⟩
    · exact Or.inl ⟨reply, h1, Or.inr (Or.inl h)⟩
    · exact Or.inl ⟨reply, h1, Or.inr (Or.inr h)⟩
    · exact Or.inr h
  rw [replyAttempt_eq]
  cases parseIntent ai (ai.generate (generateCalls w.events).length) with
  | ok intent => exact hact intent
  | error caught =>
    simp only
    cases quotaCheck caught with
    | error e => exact Or.inr ⟨e, rfl⟩
    | ok b =>
      cases b
      · exact hact defaultIntent
      · exact Or.inl ⟨busyText, rfl, Or.inl (List.mem_cons_self _ _)⟩

/-- C16. For every text, user name, chat id and state, and every
behaviour of the AI model, of `JSON.parse` and of the email collaborator
(an `Error` object or a rejection with any other value included),
`getAIReply` returns, it does not raise: (1) what it returns is a non-empty
string, one of the fixed texts of its branches (busy, address request,
extraction error, extraction failure, send failure, send error, help,
quota, generic and unexpected-error fallback), the confirmation of a sent
email, or a non-blank text the model generated; (2) whatever leaves the
`try` block is an `Error` object, which the outermost `catch` answers with
the unexpected-error text; (3) the `try` block does raise when the model
rejects the classification call with `null`, `undefined` or a value whose
truthy `message` has no method `includes`. -/
theorem getAIReply_returns_text (env : Env) (ai : Collaborators)
    (userMessage userName : String) (chatId : Int) (w : World) :
    (∃ reply, (getAIReply env ai userMessage userName chatId w).1 = Except.ok reply ∧
      reply ≠ "" ∧
      (reply ∈ [busyText, needAddressText, extractionErrorText, noEmailInfoText,
          emailFailedText, sendErrorText, helpText, quotaText userName, genericText userName,
          unexpectedText userName] ∨
        (∃ to_ subject body, reply = confirmationText to_ subject body) ∨
        (∃ k, ai.generate k = GenResult.text reply ∧ hasText reply = true))) ∧
    (∀ caught, (replyAttempt env ai userMessage userName chatId w).1 = Except.error caught →
      (∃ e, caught = Caught.error e) ∧
      (getAIReply env ai userMessage userName chatId w).1 =
        Except.ok (unexpectedText userName)) ∧
    (∀ r, ai.generate (generateCalls w.events).length = GenResult.rejects r →
      r ≠ Rejection.noMessage →
      ∃ e, (replyAttempt env ai userMessage userName chatId w).1 =
        Except.error (Caught.error e)) := by
  have hcases : ∀ reply : String,
      (reply ∈ [busyText, needAddressText, extractionErrorText, noEmailInfoText,
          emailFailedText, sendErrorText, helpText, quotaText userName, genericText userName,
          unexpectedText userName] ∨
        (∃ to_ subject body, reply = confirmationText to_ subject body) ∨
        (∃ k, ai.generate k = GenResult.text reply ∧ hasText reply = true)) →
      reply ≠ "" := by
    intro reply h
    rcases h with h | ⟨a, s, b, h⟩ | ⟨k, _, h⟩
    · simp only [List.mem_cons, List.mem_singleton, List.not_mem_nil, or_false] at h
      rcases h with h | h | h | h | h | h | h | h | h | h
      · rw [h]; decide
      · rw [h]; decide
      · rw [h]; decide
      · rw [h]; decide
      · rw [h]; decide
      · rw [h]; decide
      · rw [h]; decide
      · rw [h]; exact quotaText_ne_empty userName
      · rw [h]; exact genericText_ne_empty userName
      · rw [h]; exact unexpectedText_ne_empty userName
    · rw [h]; exact confirmationText_ne_empty a s b
    · exact ne_empty_of_hasText reply h
  have hdef : getAIReply env ai userMessage userName chatId w =
      outerCatch userName (replyAttempt env ai userMessage userName chatId w) := rfl
  refine ⟨?_, ?_, ?_⟩
  · rcases replyAttempt_cases env ai userMessage userName chatId w with ⟨reply, h1, h2⟩ | ⟨e, h1⟩
    · exact ⟨reply, by rw [hdef]; exact outerCatch_ok userName _ reply h1, hcases reply h2, h2⟩
    · refine ⟨unexpectedText userName, by rw [hdef]; exact outerCatch_error userName _ e h1,
        unexpectedText_ne_empty userName, Or.inl ?_⟩
      simp
  · intro caught hc
    rcases replyAttempt_cases env ai userMessage userName chatId w with ⟨reply, h1, _⟩ | ⟨e, h1⟩
    · rw [h1] at hc
      cases hc
    · rw [h1] at hc
      simp only [Except.error.injEq] at hc
      exact ⟨⟨e, hc.symm⟩, by rw [hdef]; exact outerCatch_error userName _ e h1⟩
  · intro r hr hne
    rw [replyAttempt_eq, hr]
    cases r with
    | nullish => exact ⟨_, rfl⟩
    | noMessage => exact absurd rfl hne
    | oddMessage => exact ⟨_, rfl⟩

/-- C16, witness: a model that rejects the classification call with `null`
makes the `try` block raise a `TypeError`, and `getAIReply` returns the
unexpected-error text; a model that rejects the extraction call makes
`extractEmailInfo` raise, and `getAIReply` returns the extraction-error
text. -/
theorem getAIReply_returns_text_witness :
    (replyAttempt envLate aiNull "hello" "A" 1 worldEmpty).1 =
      Except.error (Caught.error nullAccessError) ∧
    (getAIReply envLate aiNull "hello" "A" 1 worldEmpty).1 =
      Except.ok (unexpectedText "A") ∧
    (extractEmailInfo aiExtractionRejects thanksText
      (afterClassification envLate thanksText "A" 1 worldEmpty)).1 =
      Except.error undefinedAccessError ∧
    (getAIReply envLate aiExtractionRejects thanksText "A" 1 worldEmpty).1 =
      Except.ok extractionErrorText :=
  ⟨rfl, ((getAIReply_returns_text envLate aiNull "hello" "A" 1 worldEmpty).2.1
    (Caught.error nullAccessError) rfl).2, rfl, rfl⟩

end TelegramBoot
